import Mathlib

/-!
A verification development for the ptrace-based syscall interposer in
`reprozip/native/syscalls.c`.  The data model, the syscall handlers, the
per-ABI dispatch tables and the dispatch engine `syscall_handle` are
shallowly embedded below; C `int` / `unsigned` arithmetic is modelled on
`Int` / `Nat` with explicit reductions modulo `2^32` / `2^64` where the
source relies on machine-width conversions.  Event emission (the database
sink), warnings, errors and `ptrace` resumes are recorded in a single
ordered trace.  Debug/info narration (`log_debug` / `log_info`, gated at
verbosity >= 2) is not modelled; warnings, errors and critical messages
are.  Undefined behaviour in the source (out-of-bounds table reads, null
dereference of the execve scratch) is made explicit as a `crash` outcome.
-/

namespace Reprozip

/-! ## Constants from the source and from <fcntl.h> / <sched.h> -/

def X32_SYSCALL_BIT : Nat := 0x40000000
def SYS_CONNECT : Nat := 3
def SYS_ACCEPT : Nat := 5

def SYSCALL_I386 : Nat := 0
def SYSCALL_X86_64 : Nat := 1
def SYSCALL_X86_64_x32 : Nat := 2

def SYSCALL_OPENING_OPEN : Nat := 1
def SYSCALL_OPENING_ACCESS : Nat := 2
def SYSCALL_OPENING_CREAT : Nat := 3

def SYSCALL_FORK_FORK : Nat := 1
def SYSCALL_FORK_VFORK : Nat := 2
def SYSCALL_FORK_CLONE : Nat := 3

/-- Linux open(2) flag constants on x86 (octal values from <fcntl.h>). -/
def O_ACCMODE : Nat := 3
def O_RDONLY : Nat := 0
def O_WRONLY : Nat := 1
def O_RDWR : Nat := 2
def O_CREAT : Nat := 64
def O_TRUNC : Nat := 512

/-- The "current working directory" sentinel for the *at() syscalls. -/
def AT_FDCWD : Int := -100

def CLONE_THREAD : Nat := 0x00010000

/-- Event-sink mode bits (fixed by the spec, section 6). -/
def FILE_READ : Nat := 1
def FILE_WRITE : Nat := 2
def FILE_WDIR : Nat := 4
def FILE_STAT : Nat := 8

/-! ## Machine-integer helpers -/

/-- The 32-bit two's-complement pattern of a C `int` value. -/
def toU32 (i : Int) : Nat := (i % (2 ^ 32 : Nat)).toNat

/-- The 64-bit pattern of a value cast to `unsigned long` / `size_t`. -/
def toU64 (i : Int) : Nat := (i % (2 ^ 64 : Nat)).toNat

/-- Reinterpret a 32-bit pattern as a signed C `int`. -/
def ofI32 (n : Nat) : Int :=
  if n % 2 ^ 32 < 2 ^ 31 then (n % 2 ^ 32 : Nat) else (n % 2 ^ 32 : Nat) - 2 ^ 32

/-- `process->current_syscall & ~__X32_SYSCALL_BIT` on a 32-bit `int`. -/
def stripX32 (cs : Int) : Int := ofI32 (toU32 cs &&& 0xBFFFFFFF)

/-- `process->current_syscall & __X32_SYSCALL_BIT` as a truth value. -/
def hasX32Bit (cs : Int) : Bool := toU32 cs &&& X32_SYSCALL_BIT ≠ 0

/-! ## The six syscall-argument registers

`PROCESS_ARGS` is defined in `tracer.h`, which is not among the provided
sources; the spec (section 3) fixes six argument registers, so the
register snapshot is modelled as a six-field record.  Each register is
kept as the signed 64-bit value; the `.u` / `.p` union reads of the
source are `toU64` here. -/

structure Params where
  a0 : Int
  a1 : Int
  a2 : Int
  a3 : Int
  a4 : Int
  a5 : Int
deriving DecidableEq, Repr

def getParam (p : Params) (i : Nat) : Int :=
  match i with
  | 0 => p.a0
  | 1 => p.a1
  | 2 => p.a2
  | 3 => p.a3
  | 4 => p.a4
  | _ => p.a5

/-- The argument left-shift in `syscall_xxx_at`
(`for(i = 0; i < PROCESS_ARGS - 1; ++i) params[i] = params[i + 1];`),
unrolled at `PROCESS_ARGS = 6`. -/
def leftShiftParams (p : Params) : Params :=
  ⟨p.a1, p.a2, p.a3, p.a4, p.a5, p.a5⟩

/-- The restoring right shift in `syscall_xxx_at`
(`for(i = PROCESS_ARGS; i > 1; --i) params[i - 1] = params[i - 2];`
followed by `params[0] = arg0;`), unrolled at `PROCESS_ARGS = 6`. -/
def rightShiftParams (arg0 : Int) (p : Params) : Params :=
  ⟨arg0, p.a0, p.a1, p.a2, p.a3, p.a4⟩

/-! ## Tasks and the process registry -/

inductive Mode
  | i386
  | x86_64
deriving DecidableEq, Repr

inductive Status
  | unknown
  | allocated
  | attached
  | free
deriving DecidableEq, Repr

/-- The execve scratch (`struct ExecveInfo`). -/
structure ExecveInfo where
  binary : String
  argv : List String
  envp : List String
deriving DecidableEq, Repr

/-- `struct Process` (the fields used by syscalls.c). -/
structure Process where
  tid : Int
  tgid : Int
  wd : String
  mode : Mode
  status : Status
  in_syscall : Bool
  current_syscall : Int
  params : Params
  retvalue : Int
  identifier : Nat
  syscall_info : Option ExecveInfo
deriving DecidableEq, Repr

def defaultProcess : Process :=
  { tid := 0, tgid := 0, wd := "", mode := .x86_64, status := .free,
    in_syscall := false, current_syscall := -1,
    params := ⟨0, 0, 0, 0, 0, 0⟩, retvalue := 0, identifier := 0,
    syscall_info := none }

instance : Inhabited Process := ⟨defaultProcess⟩

/-! ## The observable trace: sink events, warnings, errors, resumes -/

inductive Event
  | add_file_open (ident : Nat) (path : String) (mode : Nat) (is_dir : Bool)
  | add_exec (ident : Nat) (binary : String) (argv envp : List String) (wd : String)
  | add_exit (ident : Nat) (code : Int)
  | add_process (parent_ident : Nat) (wd : String)
  | add_files_from_proc (ident : Nat) (tid : Int) (binary : String)
  | log_warn (tid : Int) (msg : String)
  | log_error (tid : Int) (msg : String)
  | log_critical (tid : Int) (msg : String)
  | ptrace_resume (tid : Int)
deriving DecidableEq, Repr

/-- The tracer state visible to syscalls.c: the process registry, the
ordered trace of emitted events, and the counter with which the event
sink vends identifiers from `db_add_process`. -/
structure TraceState where
  processes : List Process
  trace : List Event
  next_id : Nat
deriving DecidableEq, Repr

def emit (s : TraceState) (e : Event) : TraceState :=
  { s with trace := s.trace ++ [e] }

/-- Read registry slot `i` (handlers receive a pointer into the registry;
the dispatched task is addressed by its slot index here). -/
def getP (s : TraceState) (i : Nat) : Process :=
  s.processes.getD i defaultProcess

/-- Write registry slot `i` in place. -/
def setP (s : TraceState) (i : Nat) (p : Process) : TraceState :=
  { s with processes := s.processes.set i p }

/-! ## The environment: tracee memory, the filesystem probe, verbosity

Tracee-memory reads (`ptrace_utils.c`) and `path_is_dir` (`utils.c`) are
external to syscalls.c; they are passed in as total functions, matching
how syscalls.c itself uses them (their results are consumed without an
error check). -/

structure Env where
  /-- `tracee_strdup`: the NUL-terminated string at a tracee address. -/
  readString : Nat → String
  /-- `tracee_strarraydup`: the NULL-terminated string array at an address. -/
  readStrArray : Nat → List String
  /-- `tracee_read` of a `socklen_t` at a tracee address. -/
  readSockLen : Nat → Nat
  /-- `tracee_getptr`: a tracee word fetched as a pointer. -/
  readPtr : Nat → Nat
  /-- `tracee_getlong`: a tracee word fetched as a long. -/
  readLong : Nat → Nat
  /-- `path_is_dir`: stat the resolved path and test for a directory. -/
  isDir : String → Bool
  /-- `trace_verbosity`. -/
  verbosity : Nat

/-! ## Path resolution -/

/-- Split a character list at every `/` (an executable stand-in for the
string functions, which do not reduce in the kernel). -/
def splitSlash (cs : List Char) : List (List Char) :=
  match cs with
  | [] => [[]]
  | c :: rest =>
      let r := splitSlash rest
      if c = '/' then [] :: r
      else
        match r with
        | [] => [[c]]
        | seg :: segs => (c :: seg) :: segs

/-- Join segments with `/` between them. -/
def joinSegs (segs : List (List Char)) : List Char :=
  match segs with
  | [] => []
  | [s] => s
  | s :: rest => s ++ '/' :: joinSegs rest

/-- Modelled from the spec: `abspath` is defined in `utils.c`, which is
not among the provided sources.  Spec section 4.2: join `wd` and `raw`
and lexically normalise `.` and `..` segments, without touching the
filesystem. -/
def abspath (wd raw : String) : String :=
  let segs := splitSlash wd.data ++ splitSlash raw.data
  let kept := segs.foldl
    (fun acc seg =>
      if seg = ([] : List Char) ∨ seg = ['.'] then acc
      else if seg = ['.', '.'] then acc.dropLast
      else acc ++ [seg]) []
  String.mk ('/' :: joinSegs kept)

/-- The `pathname[0] != '/'` test of `abs_path_arg`. -/
def isAbsolute (s : String) : Bool := s.data.head? = some '/'

/-- `abs_path_arg`: duplicate the path at argument `arg` out of the
tracee and resolve it against the task's working directory if it is
relative. -/
def abs_path_arg (env : Env) (p : Process) (arg : Nat) : String :=
  let pathname := env.readString (toU64 (getParam p.params arg))
  if isAbsolute pathname then pathname else abspath p.wd pathname

/-! ## Open-flag translation -/

/-- Modelled from the spec: `flags2mode` is defined in `utils.c`, which
is not among the provided sources.  Spec section 4.3.1: `FILE_READ` if
the access mode is RDONLY or RDWR; `FILE_WRITE` if the access mode is
WRONLY or RDWR, or `O_CREAT` or `O_TRUNC` is set. -/
def flags2mode (flags : Nat) : Nat :=
  let acc := flags &&& O_ACCMODE
  let r := if acc = O_RDONLY ∨ acc = O_RDWR then FILE_READ else 0
  let w := if acc = O_WRONLY ∨ acc = O_RDWR ∨
              flags &&& O_CREAT ≠ 0 ∨ flags &&& O_TRUNC ≠ 0
           then FILE_WRITE else 0
  r ||| w

/-! ## Handler outcomes

A handler returns 0 (`ok`), returns -1 (`fail`), or runs into undefined
behaviour in the source (`crash`); each outcome carries the state the
tracer had reached at that point. -/

inductive HRes
  | ok (s : TraceState)
  | fail (s : TraceState)
  | crash (s : TraceState)
deriving DecidableEq, Repr

def HRes.state : HRes → TraceState
  | .ok s => s
  | .fail s => s
  | .crash s => s

def HRes.isOk : HRes → Bool
  | .ok _ => true
  | _ => false

def HRes.isCrash : HRes → Bool
  | .crash _ => true
  | _ => false

/-! ## The syscall handlers -/

/-- `syscall_unhandled_path1`: on a successful exit, warn with the
resolved path argument (verbosity >= 1 and a non-NULL name required). -/
def syscall_unhandled_path1 (env : Env) (s : TraceState) (pi : Nat)
    (name : Option String) (_udata : Nat) : HRes :=
  let p := getP s pi
  if 1 ≤ env.verbosity ∧ p.in_syscall = true ∧ 0 ≤ p.retvalue ∧ name.isSome then
    -- the source resolves params[0] inline exactly as abs_path_arg does
    let pathname := abs_path_arg env p 0
    .ok (emit s (.log_warn p.tid
      ("process used unhandled system call " ++ name.getD "" ++ "(" ++ pathname ++ ")")))
  else .ok s

/-- `syscall_unhandled_other`: on a successful exit, warn with the name. -/
def syscall_unhandled_other (env : Env) (s : TraceState) (pi : Nat)
    (name : Option String) (_udata : Nat) : HRes :=
  let p := getP s pi
  if 1 ≤ env.verbosity ∧ p.in_syscall = true ∧ 0 ≤ p.retvalue ∧ name.isSome then
    .ok (emit s (.log_warn p.tid
      ("process used unhandled system call " ++ name.getD "")))
  else .ok s

/-- `syscall_fileopening`: open() / creat() / access(), discriminated by
`udata`.  The verbosity >= 3 argument dump is narration and not
modelled. -/
def syscall_fileopening (env : Env) (s : TraceState) (pi : Nat)
    (_name : Option String) (syscall : Nat) : HRes :=
  let p := getP s pi
  let pathname := abs_path_arg env p 0
  let mode :=
    if syscall = SYSCALL_OPENING_ACCESS then FILE_STAT
    else if syscall = SYSCALL_OPENING_CREAT then
      flags2mode (toU64 (getParam p.params 1) ||| (O_CREAT ||| O_WRONLY ||| O_TRUNC))
    else -- syscall = SYSCALL_OPENING_OPEN
      flags2mode (toU64 (getParam p.params 1))
  if 0 ≤ p.retvalue then
    .ok (emit s (.add_file_open p.identifier pathname mode (env.isDir pathname)))
  else .ok s

/-- `syscall_filestat`: stat() and friends. -/
def syscall_filestat (env : Env) (s : TraceState) (pi : Nat)
    (_name : Option String) (_udata : Nat) : HRes :=
  let p := getP s pi
  let pathname := abs_path_arg env p 0
  if 0 ≤ p.retvalue then
    .ok (emit s (.add_file_open p.identifier pathname FILE_STAT (env.isDir pathname)))
  else .ok s

/-- `syscall_readlink`. -/
def syscall_readlink (env : Env) (s : TraceState) (pi : Nat)
    (_name : Option String) (_udata : Nat) : HRes :=
  let p := getP s pi
  let pathname := abs_path_arg env p 0
  if 0 ≤ p.retvalue then
    .ok (emit s (.add_file_open p.identifier pathname FILE_STAT false))
  else .ok s

/-- `syscall_mkdir`. -/
def syscall_mkdir (env : Env) (s : TraceState) (pi : Nat)
    (_name : Option String) (_udata : Nat) : HRes :=
  let p := getP s pi
  let pathname := abs_path_arg env p 0
  if 0 ≤ p.retvalue then
    .ok (emit s (.add_file_open p.identifier pathname FILE_WRITE true))
  else .ok s

/-- `syscall_symlink`: symlink() (target at argument 1) and symlinkat()
(target at argument 2, handled only when the dirfd is AT_FDCWD). -/
def syscall_symlink (env : Env) (s : TraceState) (pi : Nat)
    (name : Option String) (is_symlinkat : Nat) : HRes :=
  let p := getP s pi
  if is_symlinkat ≠ 0 ∧ getParam p.params 1 ≠ AT_FDCWD then
    syscall_unhandled_other env s pi name 0
  else
    let pathname :=
      if is_symlinkat ≠ 0 then abs_path_arg env p 2 else abs_path_arg env p 1
    if 0 ≤ p.retvalue then
      .ok (emit s (.add_file_open p.identifier pathname FILE_WRITE true))
    else .ok s

/-- `syscall_chdir`: on success swap in the resolved path as the new
working directory and record it with mode FILE_WDIR. -/
def syscall_chdir (env : Env) (s : TraceState) (pi : Nat)
    (_name : Option String) (_udata : Nat) : HRes :=
  let p := getP s pi
  let pathname := abs_path_arg env p 0
  if 0 ≤ p.retvalue then
    let s := setP s pi { p with wd := pathname }
    .ok (emit s (.add_file_open p.identifier pathname FILE_WDIR true))
  else .ok s

/-- `syscall_execve_in`: deep-copy binary, argv and envp out of the
tracee into the scratch.  The verbosity >= 3 dump is not modelled. -/
def syscall_execve_in (env : Env) (s : TraceState) (pi : Nat)
    (_name : Option String) (_udata : Nat) : HRes :=
  let p := getP s pi
  let execi : ExecveInfo :=
    { binary := abs_path_arg env p 0,
      argv := env.readStrArray (toU64 (getParam p.params 1)),
      envp := env.readStrArray (toU64 (getParam p.params 2)) }
  .ok (setP s pi { p with syscall_info := some execi })

/-- The registry search of `syscall_execve_out` (and of the execve
ABI-transition workaround in `syscall_handle`): an ATTACHED task of the
same thread group that is mid-execve with a live scratch. -/
def execveMatch (execve_syscall : Int) (tgid : Int) (q : Process) : Bool :=
  decide (q.status = .attached ∧ q.tgid = tgid ∧ q.in_syscall = true ∧
          q.current_syscall = execve_syscall ∧ q.syscall_info.isSome)

/-- The tail of `syscall_execve_out` shared by both paths: emit the exec
and proc-scrape events for the surviving task on kernel success, then
release the scratch and null the caller's `syscall_info`. -/
def execve_out_common (s : TraceState) (pi exec_idx : Nat)
    (execi : ExecveInfo) : HRes :=
  let process := getP s pi
  let s :=
    if 0 ≤ process.retvalue then
      emit (emit s (.add_exec process.identifier execi.binary execi.argv
                      execi.envp process.wd))
           (.add_files_from_proc process.identifier process.tid execi.binary)
    else s
  let ep := getP s exec_idx
  .ok (setP s exec_idx { ep with syscall_info := none })

/-- `syscall_execve_out`.  `exec_process` is initialized to `process` in
the source, so after a failed registry search it still equals `process`:
the `exec_process == NULL` critical-error branch is unreachable, and the
source then emits the exit event for `process` itself and dereferences
the null scratch (undefined behaviour, `crash` here). -/
def syscall_execve_out (_env : Env) (s : TraceState) (pi : Nat)
    (_name : Option String) (execve_syscall : Nat) : HRes :=
  let process := getP s pi
  match process.syscall_info with
  | some execi => execve_out_common s pi pi execi
  | none =>
      let exec_idx :=
        (s.processes.findIdx? (execveMatch (ofI32 execve_syscall) process.tgid)).getD pi
      let ep := getP s exec_idx
      -- the caller thread disappears without any trace
      let s := emit s (.add_exit ep.identifier 0)
      let s := setP s exec_idx { ep with wd := "", status := .free }
      match ep.syscall_info with
      | some execi => execve_out_common s pi exec_idx execi
      | none => .crash s

/-- Modelled from the spec: `trace_find_process` lives in `tracer.c`,
which is not among the provided sources.  Spec sections 3 and 4.3.8: look
the tid up in the registry; FREE terminates a slot, so FREE slots are not
part of the registry. -/
def trace_find_process (ps : List Process) (tid : Int) : Option Nat :=
  ps.findIdx? (fun q => decide (q.tid = tid ∧ q.status ≠ .free))

/-- Modelled from the spec: `trace_get_empty_process` lives in
`tracer.c`, which is not among the provided sources.  It hands out an
unused registry slot; modelled as appending a fresh slot. -/
def trace_get_empty_process (s : TraceState) : TraceState × Nat :=
  ({ s with processes := s.processes ++ [defaultProcess] }, s.processes.length)

/-- The tail of `syscall_forking`: set tgid and wd on the new task, then
`db_add_process` vends the new identifier and records the event. -/
def forking_finish (s : TraceState) (pi j : Nat) (is_thread : Bool) : HRes :=
  let parent := getP s pi
  let np := getP s j
  let s := setP s j
    { np with tgid := if is_thread then parent.tgid else np.tid,
              wd := parent.wd }
  let parent := getP s pi
  let np := getP s j
  let s := setP s j { np with identifier := s.next_id }
  .ok { s with next_id := s.next_id + 1,
               trace := s.trace ++ [.add_process parent.identifier parent.wd] }

/-- `syscall_forking`: fork() / vfork() / clone(), discriminated by
`udata`.  The verbosity >= 2 narration and process count are not
modelled. -/
def syscall_forking (_env : Env) (s : TraceState) (pi : Nat)
    (_name : Option String) (syscall : Nat) : HRes :=
  let p := getP s pi
  if 0 < p.retvalue then
    let is_thread : Bool :=
      decide (syscall = SYSCALL_FORK_CLONE ∧
              toU64 (getParam p.params 0) &&& CLONE_THREAD ≠ 0)
    let new_tid := p.retvalue
    match trace_find_process s.processes new_tid with
    | some j =>
        -- seen before by the wait loop
        let np := getP s j
        if np.status ≠ .unknown then
          .fail (emit s (.log_critical new_tid
            "just created process that is already running"))
        else
          let s := setP s j { np with status := .attached }
          let s := emit s (.ptrace_resume np.tid)
          forking_finish s pi j is_thread
    | none =>
        -- not seen before (the parent's syscall returned first)
        let sj := trace_get_empty_process s
        let s := sj.1
        let j := sj.2
        let np := getP s j
        let s := setP s j
          { np with status := .allocated, tid := new_tid, in_syscall := false }
        forking_finish s pi j is_thread
  else .ok s

/-- `handle_accept`: the address length is read out of tracee memory
through `arg2`; sockaddrs shorter than a `short` are ignored.  The
endpoint text rendered by `print_sockaddr` is abstracted. -/
def handle_accept (env : Env) (s : TraceState) (pi : Nat)
    (_arg1 arg2 : Nat) : HRes :=
  let p := getP s pi
  let addrlen := env.readSockLen arg2
  if 2 ≤ addrlen then
    .ok (emit s (.log_warn p.tid "process accepted a connection"))
  else .ok s

/-- `handle_connect`: the address length arrives as a value. -/
def handle_connect (_env : Env) (s : TraceState) (pi : Nat)
    (_arg1 : Nat) (addrlen : Nat) : HRes :=
  let p := getP s pi
  if 2 ≤ addrlen then
    .ok (emit s (.log_warn p.tid "process connected"))
  else .ok s

/-- `syscall_socketcall` (i386 multiplexer): re-fetch the word-sized
argument array from the tracee.  `tracee_getwordsize` is 4 on I386 and 8
on X86_64 (spec section 4.1). -/
def syscall_socketcall (env : Env) (s : TraceState) (pi : Nat)
    (_name : Option String) (_udata : Nat) : HRes :=
  let p := getP s pi
  let args := toU64 (getParam p.params 1)
  let wordsize : Nat := if p.mode = .i386 then 4 else 8
  if toU64 (getParam p.params 0) = SYS_ACCEPT then
    handle_accept env s pi (env.readPtr (args + 1 * wordsize))
                           (env.readPtr (args + 2 * wordsize))
  else if toU64 (getParam p.params 0) = SYS_CONNECT then
    handle_connect env s pi (env.readPtr (args + 1 * wordsize))
                            (env.readLong (args + 2 * wordsize) % 2 ^ 32)
  else .ok s

/-- `syscall_accept`. -/
def syscall_accept (env : Env) (s : TraceState) (pi : Nat)
    (_name : Option String) (_udata : Nat) : HRes :=
  let p := getP s pi
  handle_accept env s pi (toU64 (getParam p.params 1)) (toU64 (getParam p.params 2))

/-- `syscall_connect`. -/
def syscall_connect (env : Env) (s : TraceState) (pi : Nat)
    (_name : Option String) (_udata : Nat) : HRes :=
  let p := getP s pi
  handle_connect env s pi (toU64 (getParam p.params 1)) (toU32 (getParam p.params 2))

/-! ## The per-ABI dispatch tables

The C function pointers become a tag type interpreted by `applyHandler`
below; an entry keeps the symbolic name and the `udata` discriminator. -/

inductive HandlerTag
  | fileopening
  | filestat
  | readlink
  | mkdir
  | symlink
  | chdir
  | execve_in
  | execve_out
  | forking
  | socketcall
  | accept
  | connect
  | xxx_at
  | unhandled_path1
  | unhandled_other
deriving DecidableEq, Repr

structure TableEntry where
  name : Option String
  proc_entry : Option HandlerTag
  proc_exit : Option HandlerTag
  udata : Nat
deriving DecidableEq, Repr

def nullEntry : TableEntry := ⟨none, none, none, 0⟩

/-- An element of the unordered per-ABI lists handed to `process_table`
(`struct unprocessed_table_entry`); the all-NULL sentinel is represented
by the end of the list. -/
structure UEntry where
  n : Nat
  name : String
  proc_entry : Option HandlerTag
  proc_exit : Option HandlerTag
  udata : Nat

structure SyscallTable where
  length : Nat
  entries : Nat → TableEntry

/-- `process_table`: size the dense array as max(n)+1 over the list,
initialize every slot to NULL, then copy the unordered list in order. -/
def process_table (orig : List UEntry) : SyscallTable :=
  { length := orig.foldl (fun l e => max l (e.n + 1)) 0,
    entries := orig.foldl
      (fun f e => fun i =>
        if i = e.n then ⟨some e.name, e.proc_entry, e.proc_exit, e.udata⟩ else f i)
      (fun _ => nullEntry) }

/-- The i386 table from `syscall_build_table`. -/
def i386List : List UEntry := [
  ⟨5, "open", none, some .fileopening, SYSCALL_OPENING_OPEN⟩,
  ⟨8, "creat", none, some .fileopening, SYSCALL_OPENING_CREAT⟩,
  ⟨33, "access", none, some .fileopening, SYSCALL_OPENING_ACCESS⟩,
  ⟨106, "stat", none, some .filestat, 0⟩,
  ⟨107, "lstat", none, some .filestat, 0⟩,
  ⟨195, "stat64", none, some .filestat, 0⟩,
  ⟨18, "oldstat", none, some .filestat, 0⟩,
  ⟨196, "lstat64", none, some .filestat, 0⟩,
  ⟨84, "oldlstat", none, some .filestat, 0⟩,
  ⟨85, "readlink", none, some .readlink, 0⟩,
  ⟨39, "mkdir", none, some .mkdir, 0⟩,
  ⟨83, "symlink", none, some .symlink, 0⟩,
  ⟨12, "chdir", none, some .chdir, 0⟩,
  ⟨11, "execve", some .execve_in, some .execve_out, 11⟩,
  ⟨2, "fork", none, some .forking, SYSCALL_FORK_FORK⟩,
  ⟨190, "vfork", none, some .forking, SYSCALL_FORK_VFORK⟩,
  ⟨120, "clone", none, some .forking, SYSCALL_FORK_CLONE⟩,
  ⟨102, "socketcall", none, some .socketcall, 0⟩,
  ⟨296, "mkdirat", none, some .xxx_at, 39⟩,
  ⟨295, "openat", none, some .xxx_at, 5⟩,
  ⟨307, "faccessat", none, some .xxx_at, 33⟩,
  ⟨305, "readlinkat", none, some .xxx_at, 85⟩,
  ⟨300, "fstatat64", none, some .xxx_at, 195⟩,
  ⟨304, "symlinkat", none, some .symlink, 1⟩,
  ⟨38, "rename", none, some .unhandled_path1, 0⟩,
  ⟨40, "rmdir", none, some .unhandled_path1, 0⟩,
  ⟨9, "link", none, some .unhandled_path1, 0⟩,
  ⟨92, "truncate", none, some .unhandled_path1, 0⟩,
  ⟨193, "truncate64", none, some .unhandled_path1, 0⟩,
  ⟨10, "unlink", none, some .unhandled_path1, 0⟩,
  ⟨15, "chmod", none, some .unhandled_path1, 0⟩,
  ⟨182, "chown", none, some .unhandled_path1, 0⟩,
  ⟨212, "chown32", none, some .unhandled_path1, 0⟩,
  ⟨16, "lchown", none, some .unhandled_path1, 0⟩,
  ⟨198, "lchown32", none, some .unhandled_path1, 0⟩,
  ⟨30, "utime", none, some .unhandled_path1, 0⟩,
  ⟨271, "utimes", none, some .unhandled_path1, 0⟩,
  ⟨277, "mq_open", none, some .unhandled_path1, 0⟩,
  ⟨278, "mq_unlink", none, some .unhandled_path1, 0⟩,
  ⟨303, "linkat", none, some .unhandled_other, 0⟩,
  ⟨302, "renameat", none, some .unhandled_other, 0⟩,
  ⟨301, "unlinkat", none, some .unhandled_other, 0⟩,
  ⟨306, "fchmodat", none, some .unhandled_other, 0⟩,
  ⟨298, "fchownat", none, some .unhandled_other, 0⟩,
  ⟨26, "ptrace", none, some .unhandled_other, 0⟩,
  ⟨341, "name_to_handle_at", none, some .unhandled_other, 0⟩]

/-- The x64 table from `syscall_build_table`. -/
def x64List : List UEntry := [
  ⟨2, "open", none, some .fileopening, SYSCALL_OPENING_OPEN⟩,
  ⟨85, "creat", none, some .fileopening, SYSCALL_OPENING_CREAT⟩,
  ⟨21, "access", none, some .fileopening, SYSCALL_OPENING_ACCESS⟩,
  ⟨4, "stat", none, some .filestat, 0⟩,
  ⟨6, "lstat", none, some .filestat, 0⟩,
  ⟨89, "readlink", none, some .readlink, 0⟩,
  ⟨83, "mkdir", none, some .mkdir, 0⟩,
  ⟨88, "symlink", none, some .symlink, 0⟩,
  ⟨80, "chdir", none, some .chdir, 0⟩,
  ⟨59, "execve", some .execve_in, some .execve_out, 59⟩,
  ⟨57, "fork", none, some .forking, SYSCALL_FORK_FORK⟩,
  ⟨58, "vfork", none, some .forking, SYSCALL_FORK_VFORK⟩,
  ⟨56, "clone", none, some .forking, SYSCALL_FORK_CLONE⟩,
  ⟨43, "accept", none, some .accept, 0⟩,
  ⟨288, "accept4", none, some .accept, 0⟩,
  ⟨42, "connect", none, some .connect, 0⟩,
  ⟨258, "mkdirat", none, some .xxx_at, 83⟩,
  ⟨257, "openat", none, some .xxx_at, 2⟩,
  ⟨269, "faccessat", none, some .xxx_at, 21⟩,
  ⟨267, "readlinkat", none, some .xxx_at, 89⟩,
  ⟨262, "newfstatat", none, some .xxx_at, 4⟩,
  ⟨266, "symlinkat", none, some .symlink, 1⟩,
  ⟨82, "rename", none, some .unhandled_path1, 0⟩,
  ⟨84, "rmdir", none, some .unhandled_path1, 0⟩,
  ⟨86, "link", none, some .unhandled_path1, 0⟩,
  ⟨76, "truncate", none, some .unhandled_path1, 0⟩,
  ⟨87, "unlink", none, some .unhandled_path1, 0⟩,
  ⟨90, "chmod", none, some .unhandled_path1, 0⟩,
  ⟨92, "chown", none, some .unhandled_path1, 0⟩,
  ⟨94, "lchown", none, some .unhandled_path1, 0⟩,
  ⟨132, "utime", none, some .unhandled_path1, 0⟩,
  ⟨235, "utimes", none, some .unhandled_path1, 0⟩,
  ⟨240, "mq_open", none, some .unhandled_path1, 0⟩,
  ⟨241, "mq_unlink", none, some .unhandled_path1, 0⟩,
  ⟨265, "linkat", none, some .unhandled_other, 0⟩,
  ⟨264, "renameat", none, some .unhandled_other, 0⟩,
  ⟨263, "unlinkat", none, some .unhandled_other, 0⟩,
  ⟨268, "fchmodat", none, some .unhandled_other, 0⟩,
  ⟨260, "fchownat", none, some .unhandled_other, 0⟩,
  ⟨101, "ptrace", none, some .unhandled_other, 0⟩,
  ⟨303, "name_to_handle_at", none, some .unhandled_other, 0⟩]

/-- The x32 table from `syscall_build_table`. -/
def x32List : List UEntry := [
  ⟨2, "open", none, some .fileopening, SYSCALL_OPENING_OPEN⟩,
  ⟨85, "creat", none, some .fileopening, SYSCALL_OPENING_CREAT⟩,
  ⟨21, "access", none, some .fileopening, SYSCALL_OPENING_ACCESS⟩,
  ⟨4, "stat", none, some .filestat, 0⟩,
  ⟨6, "lstat", none, some .filestat, 0⟩,
  ⟨89, "readlink", none, some .readlink, 0⟩,
  ⟨83, "mkdir", none, some .mkdir, 0⟩,
  ⟨88, "symlink", none, some .symlink, 0⟩,
  ⟨80, "chdir", none, some .chdir, 0⟩,
  ⟨520, "execve", some .execve_in, some .execve_out, X32_SYSCALL_BIT + 520⟩,
  ⟨57, "fork", none, some .forking, SYSCALL_FORK_FORK⟩,
  ⟨58, "vfork", none, some .forking, SYSCALL_FORK_VFORK⟩,
  ⟨56, "clone", none, some .forking, SYSCALL_FORK_CLONE⟩,
  ⟨43, "accept", none, some .accept, 0⟩,
  ⟨288, "accept4", none, some .accept, 0⟩,
  ⟨42, "connect", none, some .connect, 0⟩,
  ⟨258, "mkdirat", none, some .xxx_at, 83⟩,
  ⟨257, "openat", none, some .xxx_at, 2⟩,
  ⟨269, "faccessat", none, some .xxx_at, 21⟩,
  ⟨267, "readlinkat", none, some .xxx_at, 89⟩,
  ⟨262, "newfstatat", none, some .xxx_at, 4⟩,
  ⟨266, "symlinkat", none, some .symlink, 1⟩,
  ⟨82, "rename", none, some .unhandled_path1, 0⟩,
  ⟨84, "rmdir", none, some .unhandled_path1, 0⟩,
  ⟨86, "link", none, some .unhandled_path1, 0⟩,
  ⟨76, "truncate", none, some .unhandled_path1, 0⟩,
  ⟨87, "unlink", none, some .unhandled_path1, 0⟩,
  ⟨90, "chmod", none, some .unhandled_path1, 0⟩,
  ⟨92, "chown", none, some .unhandled_path1, 0⟩,
  ⟨94, "lchown", none, some .unhandled_path1, 0⟩,
  ⟨132, "utime", none, some .unhandled_path1, 0⟩,
  ⟨235, "utimes", none, some .unhandled_path1, 0⟩,
  ⟨240, "mq_open", none, some .unhandled_path1, 0⟩,
  ⟨241, "mq_unlink", none, some .unhandled_path1, 0⟩,
  ⟨265, "linkat", none, some .unhandled_other, 0⟩,
  ⟨264, "renameat", none, some .unhandled_other, 0⟩,
  ⟨263, "unlinkat", none, some .unhandled_other, 0⟩,
  ⟨268, "fchmodat", none, some .unhandled_other, 0⟩,
  ⟨260, "fchownat", none, some .unhandled_other, 0⟩,
  ⟨521, "ptrace", none, some .unhandled_other, 0⟩,
  ⟨303, "name_to_handle_at", none, some .unhandled_other, 0⟩]

/-- `syscall_build_table` on an X86_64 host: three tables. -/
def tableI386 : SyscallTable := process_table i386List
def tableX64 : SyscallTable := process_table x64List
def tableX32 : SyscallTable := process_table x32List

def syscallTable (syscall_type : Nat) : SyscallTable :=
  if syscall_type = SYSCALL_I386 then tableI386
  else if syscall_type = SYSCALL_X86_64 then tableX64
  else tableX32

/-- The per-task ABI selection shared by `syscall_handle` and
`syscall_xxx_at`. -/
def syscallType (p : Process) : Nat :=
  if p.mode = .i386 then SYSCALL_I386
  else if hasX32Bit p.current_syscall then SYSCALL_X86_64_x32
  else SYSCALL_X86_64

/-! ## Handler dispatch, including the *at wrapper

`syscall_xxx_at` re-enters the table, so the interpretation of handler
tags is fuelled; with the tables above a fuel of 2 always suffices, and
the fuel-exhaustion branch is unreachable. -/

/-- `syscall_xxx_at`: when the dirfd is AT_FDCWD, re-dispatch
`real_syscall` through the same ABI's table with the arguments shifted
left by one, then shift them back; otherwise warn as unhandled.  The
re-entry into the table is received as `inner` (instantiated with
`applyHandler` at the remaining fuel). -/
def syscall_xxx_at
    (inner : HandlerTag → Env → TraceState → Nat → Option String → Nat → HRes)
    (env : Env) (s : TraceState) (pi : Nat)
    (name : Option String) (real_syscall : Nat) : HRes :=
  let process := getP s pi
  if getParam process.params 0 = AT_FDCWD then
    let tbl := syscallTable (syscallType process)
    let entry? : Option TableEntry :=
      if real_syscall < tbl.length then some (tbl.entries real_syscall) else none
    match entry? with
    | none =>
        .ok (emit s (.log_critical process.tid "INVALID SYSCALL in *at dispatch"))
    | some entry =>
        if entry.name.isNone ∨ entry.proc_exit.isNone then
          .ok (emit s (.log_critical process.tid "INVALID SYSCALL in *at dispatch"))
        else
          let arg0 := getParam process.params 0
          let s1 := setP s pi { process with params := leftShiftParams process.params }
          let dispatched :=
            match entry.proc_exit with
            | some tag => inner tag env s1 pi entry.name entry.udata
            | none => .ok s1    -- excluded by the validity test above
          match dispatched with
          | .crash s2 => .crash s2
          | .ok s2 =>
              let q := getP s2 pi
              .ok (setP s2 pi { q with params := rightShiftParams arg0 q.params })
          | .fail s2 =>
              let q := getP s2 pi
              .fail (setP s2 pi { q with params := rightShiftParams arg0 q.params })
  else
    syscall_unhandled_other env s pi name 0

/-- The interpretation of handler tags (the C function pointers). -/
def applyHandler : Nat → HandlerTag → Env → TraceState → Nat →
    Option String → Nat → HRes
  | _, .fileopening, env, s, pi, name, ud => syscall_fileopening env s pi name ud
  | _, .filestat, env, s, pi, name, ud => syscall_filestat env s pi name ud
  | _, .readlink, env, s, pi, name, ud => syscall_readlink env s pi name ud
  | _, .mkdir, env, s, pi, name, ud => syscall_mkdir env s pi name ud
  | _, .symlink, env, s, pi, name, ud => syscall_symlink env s pi name ud
  | _, .chdir, env, s, pi, name, ud => syscall_chdir env s pi name ud
  | _, .execve_in, env, s, pi, name, ud => syscall_execve_in env s pi name ud
  | _, .execve_out, env, s, pi, name, ud => syscall_execve_out env s pi name ud
  | _, .forking, env, s, pi, name, ud => syscall_forking env s pi name ud
  | _, .socketcall, env, s, pi, name, ud => syscall_socketcall env s pi name ud
  | _, .accept, env, s, pi, name, ud => syscall_accept env s pi name ud
  | _, .connect, env, s, pi, name, ud => syscall_connect env s pi name ud
  | _, .unhandled_path1, env, s, pi, name, ud => syscall_unhandled_path1 env s pi name ud
  | _, .unhandled_other, env, s, pi, name, ud => syscall_unhandled_other env s pi name ud
  | 0, .xxx_at, _, s, _, _, _ => .crash s
  | fuel + 1, .xxx_at, env, s, pi, name, ud =>
      syscall_xxx_at (applyHandler fuel) env s pi name ud

/-! ## The dispatch engine -/

/-- How `syscall_handle` resolves the table entry to run: no entry, a
real entry, or a read past the end of the entries array (the guard at
the bottom of the function tests `syscall >= 0 || (size_t)syscall <
tbl->length`, so a non-negative index is never bounds-checked). -/
inductive EntrySel
  | noneSel
  | found (e : TableEntry)
  | oob
deriving DecidableEq, Repr

def selectEntry (s : TraceState) (process : Process) (syscall : Int)
    (syscall_type : Nat) : EntrySel :=
  let tbl := syscallTable syscall_type
  if syscall = 59 ∧ process.in_syscall = true then
    -- workaround for the execve() transition x64 -> i386
    if s.processes.any (execveMatch 59 process.tgid) then
      .found (tableX64.entries 59)
    else .noneSel
  else if syscall = 11 ∧ process.in_syscall = true then
    -- workaround for the execve() transition i386 -> x64
    if s.processes.any (execveMatch 11 process.tgid) then
      .found (tableI386.entries 11)
    else .noneSel
  else if 0 ≤ syscall ∨ toU64 syscall < tbl.length then
    if 0 ≤ syscall ∧ syscall.toNat < tbl.length then
      .found (tbl.entries syscall.toNat)
    else .oob
  else .noneSel

/-- The tail of `syscall_handle`: flip `in_syscall`, clear
`current_syscall` and `syscall_info` on the exit edge, and resume the
task toward its next syscall stop. -/
def flipAndResume (s : TraceState) (pi : Nat) (tid : Int) : HRes :=
  let p := getP s pi
  let p' :=
    if p.in_syscall then
      { p with in_syscall := false, current_syscall := -1, syscall_info := none }
    else
      { p with in_syscall := true }
  .ok (emit (setP s pi p') (.ptrace_resume tid))

/-- `syscall_handle`: strip the x32 bit, pick the ABI table, log
out-of-range indices, resolve the entry (with the execve ABI-transition
workaround), run the entry- or exit-handler, then flip and resume.  A
handler returning -1 propagates as `fail` without flipping; an
out-of-bounds entries read is a `crash`. -/
def syscall_handle (env : Env) (s : TraceState) (pi : Nat) : HRes :=
  let process := getP s pi
  let tid := process.tid
  let syscall := stripX32 process.current_syscall
  let syscall_type := syscallType process
  let s1 :=
    if syscall < 0 ∨ 2000 ≤ syscall then
      emit s (.log_error tid "INVALID SYSCALL")
    else s
  match selectEntry s1 process syscall syscall_type with
  | .oob => .crash s1   -- the entry pointer aims outside the table
  | .noneSel => flipAndResume s1 pi tid
  | .found entry =>
      let hres :=
        if process.in_syscall = false then
          match entry.proc_entry with
          | some tag => applyHandler 8 tag env s1 pi entry.name entry.udata
          | none => .ok s1
        else
          match entry.proc_exit with
          | some tag => applyHandler 8 tag env s1 pi entry.name entry.udata
          | none => .ok s1
      match hres with
      | .ok s2 => flipAndResume s2 pi tid
      | .fail s2 => .fail s2
      | .crash s2 => .crash s2

/-! ## Basic state lemmas -/

theorem state_ok (s : TraceState) : (HRes.ok s).state = s := rfl

theorem state_fail (s : TraceState) : (HRes.fail s).state = s := rfl

theorem state_crash (s : TraceState) : (HRes.crash s).state = s := rfl

theorem getP_emit (s : TraceState) (e : Event) (i : Nat) :
    getP (emit s e) i = getP s i := rfl

theorem trace_setP (s : TraceState) (i : Nat) (p : Process) :
    (setP s i p).trace = s.trace := rfl

theorem trace_emit (s : TraceState) (e : Event) :
    (emit s e).trace = s.trace ++ [e] := rfl

theorem getP_setP_self (s : TraceState) (i : Nat) (p : Process)
    (h : i < s.processes.length) : getP (setP s i p) i = p := by
  simp [getP, setP, List.getD_eq_getElem?_getD, List.getElem?_set_self, h]

theorem getP_setP_ne (s : TraceState) (i j : Nat) (p : Process)
    (h : i ≠ j) : getP (setP s j p) i = getP s i := by
  simp [getP, setP, List.getD_eq_getElem?_getD, List.getElem?_set_ne, Ne.symm h]

theorem getP_append_one (s : TraceState) (q : Process) :
    getP { s with processes := s.processes ++ [q] } s.processes.length = q := by
  simp [getP, List.getD_append_right]

/-! ## Handlers leave every task's registers and `in_syscall` alone

`preserves s s'` states that the registry did not shrink and that no
slot's `params` or `in_syscall` changed between `s` and `s'`.  Every
handler guarantees it on its non-crash outcomes; `syscall_handle` uses
this when it re-reads `in_syscall` after running a handler, and
`syscall_xxx_at`'s restore step depends on the inner handler honouring
it. -/

def preserves (s s' : TraceState) : Prop :=
  s.processes.length ≤ s'.processes.length ∧
  ∀ i, (getP s' i).params = (getP s i).params ∧
       (getP s' i).in_syscall = (getP s i).in_syscall

theorem preserves_refl (s : TraceState) : preserves s s :=
  ⟨le_refl _, fun _ => ⟨rfl, rfl⟩⟩

theorem preserves_trans {s1 s2 s3 : TraceState}
    (h1 : preserves s1 s2) (h2 : preserves s2 s3) : preserves s1 s3 :=
  ⟨le_trans h1.1 h2.1,
   fun i => ⟨((h2.2 i).1).trans ((h1.2 i).1), ((h2.2 i).2).trans ((h1.2 i).2)⟩⟩

theorem preserves_of_processes_eq {s s' : TraceState}
    (h : s'.processes = s.processes) : preserves s s' := by
  refine ⟨le_of_eq (by rw [h]), fun i => ?_⟩
  unfold getP
  rw [h]
  exact ⟨rfl, rfl⟩

theorem preserves_emit (s : TraceState) (e : Event) : preserves s (emit s e) :=
  preserves_of_processes_eq rfl

theorem preserves_setP (s : TraceState) (j : Nat) (p : Process)
    (hp : p.params = (getP s j).params)
    (hi : p.in_syscall = (getP s j).in_syscall) :
    preserves s (setP s j p) := by
  refine ⟨le_of_eq (by simp [setP]), fun i => ?_⟩
  simp only [getP, List.getD_eq_getElem?_getD] at hp hi ⊢
  simp only [setP, List.getElem?_set]
  by_cases h : j = i
  · subst h
    by_cases hl : j < s.processes.length
    · simp [hl, hp, hi]
    · simp [hl, List.getElem?_eq_none (le_of_not_lt hl)]
  · simp [h]

theorem preserves_append_one (s : TraceState) (q : Process)
    (hp : q.params = defaultProcess.params)
    (hi : q.in_syscall = defaultProcess.in_syscall) :
    preserves s { s with processes := s.processes ++ [q] } := by
  refine ⟨by simp, fun i => ?_⟩
  by_cases h : i < s.processes.length
  · simp [getP, List.getD_eq_getElem?_getD, List.getElem?_append, h]
  · have h2 : s.processes.length ≤ i := le_of_not_lt h
    simp only [getP, List.getD_append_right _ _ _ _ h2,
               List.getD_eq_getElem?_getD, List.getElem?_eq_none (by simpa using h2)]
    rcases Nat.eq_or_lt_of_le h2 with he | hl
    · simp [← he, hp, hi]
    · have : 0 < i - s.processes.length := by omega
      rcases Nat.exists_eq_add_of_lt this with ⟨k, hk⟩
      cases hh : i - s.processes.length with
      | zero => omega
      | succ m => simp

theorem preserves_setP_processes (s s' : TraceState) (j : Nat) (p : Process)
    (h : s'.processes = (setP s j p).processes)
    (hp : p.params = (getP s j).params)
    (hi : p.in_syscall = (getP s j).in_syscall) :
    preserves s s' :=
  preserves_trans (preserves_setP s j p hp hi) (preserves_of_processes_eq h)

theorem preserves_double_setP (s s' : TraceState) (j : Nat) (p q : Process)
    (h : s'.processes = (setP (setP s j p) j q).processes)
    (hp : p.params = (getP s j).params)
    (hip : p.in_syscall = (getP s j).in_syscall)
    (hq : q.params = (getP (setP s j p) j).params)
    (hiq : q.in_syscall = (getP (setP s j p) j).in_syscall) :
    preserves s s' :=
  preserves_trans (preserves_setP s j p hp hip)
    (preserves_setP_processes (setP s j p) s' j q h hq hiq)

theorem preserves_ite (s : TraceState) {c : Prop} [Decidable c] {x y : HRes}
    (hx : preserves s x.state) (hy : preserves s y.state) :
    preserves s (if c then x else y).state := by
  split
  · exact hx
  · exact hy

theorem unhandled_path1_preserves (env : Env) (s : TraceState) (pi : Nat)
    (name : Option String) (ud : Nat) :
    preserves s (syscall_unhandled_path1 env s pi name ud).state := by
  unfold syscall_unhandled_path1
  exact preserves_ite s (preserves_emit _ _) (preserves_refl _)

theorem unhandled_other_preserves (env : Env) (s : TraceState) (pi : Nat)
    (name : Option String) (ud : Nat) :
    preserves s (syscall_unhandled_other env s pi name ud).state := by
  unfold syscall_unhandled_other
  exact preserves_ite s (preserves_emit _ _) (preserves_refl _)

theorem fileopening_preserves (env : Env) (s : TraceState) (pi : Nat)
    (name : Option String) (ud : Nat) :
    preserves s (syscall_fileopening env s pi name ud).state := by
  unfold syscall_fileopening
  exact preserves_ite s (preserves_emit _ _) (preserves_refl _)

theorem filestat_preserves (env : Env) (s : TraceState) (pi : Nat)
    (name : Option String) (ud : Nat) :
    preserves s (syscall_filestat env s pi name ud).state := by
  unfold syscall_filestat
  exact preserves_ite s (preserves_emit _ _) (preserves_refl _)

theorem readlink_preserves (env : Env) (s : TraceState) (pi : Nat)
    (name : Option String) (ud : Nat) :
    preserves s (syscall_readlink env s pi name ud).state := by
  unfold syscall_readlink
  exact preserves_ite s (preserves_emit _ _) (preserves_refl _)

theorem mkdir_preserves (env : Env) (s : TraceState) (pi : Nat)
    (name : Option String) (ud : Nat) :
    preserves s (syscall_mkdir env s pi name ud).state := by
  unfold syscall_mkdir
  exact preserves_ite s (preserves_emit _ _) (preserves_refl _)

theorem symlink_preserves (env : Env) (s : TraceState) (pi : Nat)
    (name : Option String) (ud : Nat) :
    preserves s (syscall_symlink env s pi name ud).state := by
  unfold syscall_symlink
  refine preserves_ite s ?_ ?_
  · exact unhandled_other_preserves _ _ _ _ _
  · exact preserves_ite s (preserves_emit _ _) (preserves_refl _)

theorem chdir_preserves (env : Env) (s : TraceState) (pi : Nat)
    (name : Option String) (ud : Nat) :
    preserves s (syscall_chdir env s pi name ud).state := by
  unfold syscall_chdir
  dsimp only
  refine preserves_ite s ?_ (preserves_refl _)
  exact preserves_setP_processes _ _ _ _ rfl rfl rfl

theorem execve_in_preserves (env : Env) (s : TraceState) (pi : Nat)
    (name : Option String) (ud : Nat) :
    preserves s (syscall_execve_in env s pi name ud).state :=
  preserves_setP _ _ _ rfl rfl

theorem execve_out_common_preserves (s : TraceState) (pi j : Nat)
    (execi : ExecveInfo) :
    preserves s (execve_out_common s pi j execi).state := by
  unfold execve_out_common
  by_cases h : 0 ≤ (getP s pi).retvalue
  · simp only [h, if_true]
    exact preserves_trans
      (preserves_trans (preserves_emit _ _) (preserves_emit _ _))
      (preserves_setP _ _ _ rfl rfl)
  · simp only [h, if_false]
    exact preserves_setP _ _ _ rfl rfl

theorem execve_out_preserves (env : Env) (s : TraceState) (pi : Nat)
    (name : Option String) (ud : Nat) :
    preserves s (syscall_execve_out env s pi name ud).state := by
  unfold syscall_execve_out
  dsimp only
  split
  · exact execve_out_common_preserves _ _ _ _
  · split
    · refine preserves_trans ?_ (execve_out_common_preserves _ _ _ _)
      exact preserves_trans (preserves_emit _ _)
        (preserves_setP_processes _ _ _ _ rfl rfl rfl)
    · exact preserves_trans (preserves_emit _ _)
        (preserves_setP_processes _ _ _ _ rfl rfl rfl)

theorem forking_finish_preserves (s : TraceState) (pi j : Nat) (b : Bool) :
    preserves s (forking_finish s pi j b).state := by
  unfold forking_finish
  dsimp only
  exact preserves_double_setP _ _ _ _ _ rfl rfl rfl rfl rfl

theorem forking_preserves (env : Env) (s : TraceState) (pi : Nat)
    (name : Option String) (ud : Nat) :
    preserves s (syscall_forking env s pi name ud).state := by
  unfold syscall_forking
  dsimp only
  refine preserves_ite s ?_ (preserves_refl _)
  split
  · -- found in the registry
    refine preserves_ite s (preserves_emit _ _) ?_
    refine preserves_trans ?_ (forking_finish_preserves _ _ _ _)
    refine preserves_trans ?_ (preserves_emit _ _)
    exact preserves_setP _ _ _ rfl rfl
  · -- fresh slot
    simp only [trace_get_empty_process]
    refine preserves_trans (preserves_append_one s defaultProcess rfl rfl) ?_
    refine preserves_trans ?_ (forking_finish_preserves _ _ _ _)
    refine preserves_setP_processes _ _ _ _ rfl rfl ?_
    rw [getP_append_one]
    rfl

theorem handle_accept_preserves (env : Env) (s : TraceState) (pi : Nat)
    (a1 a2 : Nat) : preserves s (handle_accept env s pi a1 a2).state := by
  unfold handle_accept
  exact preserves_ite s (preserves_emit _ _) (preserves_refl _)

theorem handle_connect_preserves (env : Env) (s : TraceState) (pi : Nat)
    (a1 al : Nat) : preserves s (handle_connect env s pi a1 al).state := by
  unfold handle_connect
  exact preserves_ite s (preserves_emit _ _) (preserves_refl _)

theorem socketcall_preserves (env : Env) (s : TraceState) (pi : Nat)
    (name : Option String) (ud : Nat) :
    preserves s (syscall_socketcall env s pi name ud).state := by
  unfold syscall_socketcall
  refine preserves_ite s ?_ ?_
  · exact handle_accept_preserves _ _ _ _ _
  · refine preserves_ite s ?_ (preserves_refl _)
    exact handle_connect_preserves _ _ _ _ _

theorem accept_preserves (env : Env) (s : TraceState) (pi : Nat)
    (name : Option String) (ud : Nat) :
    preserves s (syscall_accept env s pi name ud).state := by
  unfold syscall_accept
  exact handle_accept_preserves _ _ _ _ _

theorem connect_preserves (env : Env) (s : TraceState) (pi : Nat)
    (name : Option String) (ud : Nat) :
    preserves s (syscall_connect env s pi name ud).state := by
  unfold syscall_connect
  exact handle_connect_preserves _ _ _ _ _

theorem preserves_of_state {s : TraceState} {r : HRes} {s2 : TraceState}
    (hp : preserves s r.state) (h : r = .ok s2 ∨ r = .fail s2) : preserves s s2 := by
  rcases h with h | h <;> rw [h] at hp <;> exact hp

theorem getP_out (s : TraceState) (i : Nat) (h : s.processes.length ≤ i) :
    getP s i = defaultProcess := by
  simp [getP, List.getD_eq_getElem?_getD, List.getElem?_eq_none h]

theorem length_setP (s : TraceState) (i : Nat) (p : Process) :
    (setP s i p).processes.length = s.processes.length := by simp [setP]

theorem setP_out (s : TraceState) (i : Nat) (p : Process)
    (h : s.processes.length ≤ i) : setP s i p = s := by
  simp [setP, List.set_eq_of_length_le h]

/-- The *at argument dance is the identity: shifting left and then right
restores the register snapshot. -/
theorem shift_restore (p : Params) :
    rightShiftParams (getParam p 0) (leftShiftParams p) = p := rfl

/-- If the inner handler of `syscall_xxx_at` preserves registers and
`in_syscall`, then the whole shift / dispatch / restore sequence does. -/
theorem xxx_at_restore_preserves (s c : TraceState) (pi : Nat)
    (hc : preserves (setP s pi { getP s pi with
            params := leftShiftParams (getP s pi).params }) c) :
    preserves s (setP c pi { getP c pi with
      params := rightShiftParams (getParam (getP s pi).params 0)
                  (getP c pi).params }) := by
  have hlen1 : (setP s pi { getP s pi with
      params := leftShiftParams (getP s pi).params }).processes.length
      = s.processes.length := length_setP _ _ _
  have hlen : s.processes.length ≤ c.processes.length := by
    rw [← hlen1]; exact hc.1
  have hA : (getP (setP s pi { getP s pi with
        params := leftShiftParams (getP s pi).params }) pi).params
        = leftShiftParams ((getP s pi).params) ∧
      (getP (setP s pi { getP s pi with
        params := leftShiftParams (getP s pi).params }) pi).in_syscall
        = (getP s pi).in_syscall := by
    by_cases h : pi < s.processes.length
    · rw [getP_setP_self _ _ _ h]
      exact ⟨rfl, rfl⟩
    · have h2 := le_of_not_lt h
      rw [setP_out _ _ _ h2, getP_out _ _ h2]
      exact ⟨rfl, rfl⟩
  constructor
  · rw [length_setP]; exact hlen
  intro i
  by_cases hip : i = pi
  · subst hip
    by_cases h : i < c.processes.length
    · rw [getP_setP_self _ _ _ h]
      refine ⟨?_, ?_⟩
      · show rightShiftParams (getParam (getP s i).params 0) (getP c i).params
            = (getP s i).params
        rw [(hc.2 i).1, hA.1, shift_restore]
      · show (getP c i).in_syscall = (getP s i).in_syscall
        rw [(hc.2 i).2, hA.2]
    · have h2 := le_of_not_lt h
      rw [setP_out _ _ _ h2]
      have e1 : getP c i = defaultProcess := getP_out _ _ h2
      have e2 : getP s i = defaultProcess := getP_out _ _ (le_trans hlen h2)
      rw [e1, e2]
      exact ⟨rfl, rfl⟩
  · rw [getP_setP_ne _ _ _ _ hip]
    have e1 : getP (setP s pi { getP s pi with
        params := leftShiftParams (getP s pi).params }) i = getP s i :=
      getP_setP_ne _ _ _ _ hip
    refine ⟨?_, ?_⟩
    · rw [(hc.2 i).1, e1]
    · rw [(hc.2 i).2, e1]

/-- Master lemma: on an `ok` or `fail` outcome, no handler (at any fuel,
through any tag, including the *at wrapper) changes any task's `params`
or `in_syscall`, and the registry never shrinks. -/
theorem applyHandler_preserves (fuel : Nat) :
    ∀ (tag : HandlerTag) (env : Env) (s : TraceState) (pi : Nat)
      (name : Option String) (ud : Nat) (s2 : TraceState),
      applyHandler fuel tag env s pi name ud = .ok s2 ∨
      applyHandler fuel tag env s pi name ud = .fail s2 →
      preserves s s2 := by
  induction fuel with
  | zero =>
      intro tag env s pi name ud s2 h
      cases tag
      case xxx_at => rcases h with h | h <;> cases h
      all_goals
        first
          | exact preserves_of_state (fileopening_preserves env s pi name ud) h
          | exact preserves_of_state (filestat_preserves env s pi name ud) h
          | exact preserves_of_state (readlink_preserves env s pi name ud) h
          | exact preserves_of_state (mkdir_preserves env s pi name ud) h
          | exact preserves_of_state (symlink_preserves env s pi name ud) h
          | exact preserves_of_state (chdir_preserves env s pi name ud) h
          | exact preserves_of_state (execve_in_preserves env s pi name ud) h
          | exact preserves_of_state (execve_out_preserves env s pi name ud) h
          | exact preserves_of_state (forking_preserves env s pi name ud) h
          | exact preserves_of_state (socketcall_preserves env s pi name ud) h
          | exact preserves_of_state (accept_preserves env s pi name ud) h
          | exact preserves_of_state (connect_preserves env s pi name ud) h
          | exact preserves_of_state (unhandled_path1_preserves env s pi name ud) h
          | exact preserves_of_state (unhandled_other_preserves env s pi name ud) h
  | succ n ih =>
      intro tag env s pi name ud s2 h
      cases tag
      case xxx_at =>
          have hstep : applyHandler (n + 1) HandlerTag.xxx_at env s pi name ud
              = syscall_xxx_at (applyHandler n) env s pi name ud := rfl
          rw [hstep] at h
          unfold syscall_xxx_at at h
          dsimp only at h
          by_cases hsent : getParam (getP s pi).params 0 = AT_FDCWD
          · rw [if_pos hsent] at h
            split at h
            · rcases h with h | h
              · injection h with h2
                subst h2
                exact preserves_emit _ _
              · cases h
            · split at h
              · rcases h with h | h
                · injection h with h2
                  subst h2
                  exact preserves_emit _ _
                · cases h
              · split at h
                · rcases h with h | h <;> cases h
                · rename_i c heq
                  rcases h with h | h
                  · injection h with h2
                    subst h2
                    split at heq
                    · rename_i tg htg
                      exact xxx_at_restore_preserves s c pi
                        (ih tg env _ pi _ _ c (Or.inl heq))
                    · injection heq with h3
                      subst h3
                      exact xxx_at_restore_preserves s _ pi (preserves_refl _)
                  · cases h
                · rename_i c heq
                  rcases h with h | h
                  · cases h
                  · injection h with h2
                    subst h2
                    split at heq
                    · rename_i tg htg
                      exact xxx_at_restore_preserves s c pi
                        (ih tg env _ pi _ _ c (Or.inr heq))
                    · cases heq
          · rw [if_neg hsent] at h
            exact preserves_of_state (unhandled_other_preserves env s pi name 0) h
      all_goals
        first
          | exact preserves_of_state (fileopening_preserves env s pi name ud) h
          | exact preserves_of_state (filestat_preserves env s pi name ud) h
          | exact preserves_of_state (readlink_preserves env s pi name ud) h
          | exact preserves_of_state (mkdir_preserves env s pi name ud) h
          | exact preserves_of_state (symlink_preserves env s pi name ud) h
          | exact preserves_of_state (chdir_preserves env s pi name ud) h
          | exact preserves_of_state (execve_in_preserves env s pi name ud) h
          | exact preserves_of_state (execve_out_preserves env s pi name ud) h
          | exact preserves_of_state (forking_preserves env s pi name ud) h
          | exact preserves_of_state (socketcall_preserves env s pi name ud) h
          | exact preserves_of_state (accept_preserves env s pi name ud) h
          | exact preserves_of_state (connect_preserves env s pi name ud) h
          | exact preserves_of_state (unhandled_path1_preserves env s pi name ud) h
          | exact preserves_of_state (unhandled_other_preserves env s pi name ud) h

/-! ## The claims -/

set_option maxRecDepth 100000

/-- A minimal environment for the concrete scenarios. -/
def envA : Env :=
  { readString := fun _ => "", readStrArray := fun _ => [],
    readSockLen := fun _ => 0, readPtr := fun _ => 0, readLong := fun _ => 0,
    isDir := fun _ => false, verbosity := 0 }

/-- An X86_64 task (tid 100, identifier 7, wd `/home/u`) about to be
dispatched with raw syscall number `cs` on the given edge. -/
def task100 (cs : Int) (insys : Bool) : Process :=
  { tid := 100, tgid := 100, wd := "/home/u", mode := .x86_64,
    status := .attached, in_syscall := insys, current_syscall := cs,
    params := ⟨0, 0, 0, 0, 0, 0⟩, retvalue := 0, identifier := 7,
    syscall_info := none }

/-- A registry holding just `task100`. -/
def oneTask (cs : Int) (insys : Bool) : TraceState :=
  { processes := [task100 cs insys], trace := [], next_id := 1 }

/-- C1: the claim says an index below 0 or at/above 2000 is logged and the
task resumed without dispatching, and that 0 and 1999 stay inside the
table.  In the code the test at the bottom of `syscall_handle` is
`syscall >= 0 || (size_t)syscall < tbl->length` — `||` where `&&` was
intended — so every non-negative index passes it: at 2000 the error is
logged but `&tbl->entries[2000]` is still read (1696 entries past the
x64 table, whose length is 304), and 1999 reads out of bounds without
even the log.  A negative index does log and resume without dispatch.
This theorem exhibits the divergence. -/
theorem c1_range_check_not_enforced :
    tableX64.length = 304 ∧
    syscall_handle envA (oneTask 2000 false) 0 =
      .crash (emit (oneTask 2000 false) (.log_error 100 "INVALID SYSCALL")) ∧
    syscall_handle envA (oneTask 1999 false) 0 = .crash (oneTask 1999 false) ∧
    ((syscall_handle envA (oneTask (-1) false) 0).isOk = true ∧
     (syscall_handle envA (oneTask (-1) false) 0).state.trace =
       [.log_error 100 "INVALID SYSCALL", .ptrace_resume 100]) := by
  refine ⟨by decide, by decide, by decide, by decide, by decide⟩

/-- C2: the claim says an execve exit with no matching mid-execve sibling
logs a critical error and returns failure with no events.  In the code
`exec_process` is initialized to `process`, so the `exec_process == NULL`
branch (the one carrying `log_critical` and `return -1`) is unreachable:
when the registry search finds nothing, the code emits
`db_add_exit(process->identifier, 0)` for the dispatched task itself,
frees its wd, marks it FREE, and then dereferences the null
`syscall_info` scratch — undefined behaviour, modelled as `crash`.  The
trace of the concrete run shows the `add_exit` event and no critical
log. -/
theorem c2_dead_critical_branch :
    (syscall_execve_out envA (oneTask 59 true) 0 (some "execve") 59).isCrash = true ∧
    (syscall_execve_out envA (oneTask 59 true) 0 (some "execve") 59).state.trace =
      [.add_exit 7 0] ∧
    (getP (syscall_execve_out envA (oneTask 59 true) 0 (some "execve") 59).state 0).status
      = .free ∧
    (getP (syscall_execve_out envA (oneTask 59 true) 0 (some "execve") 59).state 0).wd
      = "" := by
  refine ⟨by decide, by decide, by decide, by decide⟩

/-- C8: on a chdir exit with `retvalue >= 0` the task's wd is replaced by
the argument resolved against the old wd and exactly one
`add_file_open(identifier, new_wd, FILE_WDIR, is_dir=true)` event is
emitted; on `retvalue < 0` the state is returned untouched and no event
is emitted. -/
theorem c8_chdir_spec (env : Env) (s : TraceState) (pi : Nat)
    (name : Option String) (ud : Nat) (h : pi < s.processes.length) :
    (0 ≤ (getP s pi).retvalue →
      syscall_chdir env s pi name ud =
        .ok (emit (setP s pi { getP s pi with wd := abs_path_arg env (getP s pi) 0 })
              (.add_file_open (getP s pi).identifier (abs_path_arg env (getP s pi) 0)
                FILE_WDIR true)) ∧
      (getP (syscall_chdir env s pi name ud).state pi).wd
        = abs_path_arg env (getP s pi) 0) ∧
    ((getP s pi).retvalue < 0 → syscall_chdir env s pi name ud = .ok s) := by
  constructor
  · intro hr
    have he : syscall_chdir env s pi name ud =
        .ok (emit (setP s pi { getP s pi with wd := abs_path_arg env (getP s pi) 0 })
              (.add_file_open (getP s pi).identifier (abs_path_arg env (getP s pi) 0)
                FILE_WDIR true)) := by
      unfold syscall_chdir
      dsimp only
      rw [if_pos hr]
    refine ⟨he, ?_⟩
    rw [he, state_ok, getP_emit, getP_setP_self _ _ _ h]
  · intro hr
    unfold syscall_chdir
    dsimp only
    rw [if_neg (not_le.mpr hr)]

/-- The environment for the chdir scenario: the tracee argument string
is "/tmp". -/
def envTmp : Env := { envA with readString := fun _ => "/tmp" }

/-- A failing chdir: same task but retvalue -1. -/
def failedChdir : TraceState :=
  { processes := [{ task100 80 true with retvalue := -1 }],
    trace := [], next_id := 1 }

/-- Witness for C8: `chdir("/tmp")` succeeding (retvalue 0) from
`/home/u` swaps the wd in; a failing chdir (retvalue -1) returns the
state untouched. -/
theorem c8_chdir_witness :
    (getP (syscall_chdir envTmp (oneTask 80 true) 0 (some "chdir") 0).state 0).wd
      = "/tmp" ∧
    syscall_chdir envTmp failedChdir 0 (some "chdir") 0 = .ok failedChdir :=
  ⟨(((c8_chdir_spec envTmp (oneTask 80 true) 0 (some "chdir") 0 (by decide)).1
      (by decide)).2).trans (by decide),
   (c8_chdir_spec envTmp failedChdir 0 (some "chdir") 0 (by decide)).2 (by decide)⟩

/-- C10: `handle_accept` first reads the address length out of tracee
memory through the third argument pointer, `handle_connect` receives it
as the third argument value; in both handlers a length below
`sizeof(short)` (2) emits no warning and no event and returns success, so
truncated sockaddrs are silently dropped. -/
theorem c10_truncated_sockaddr_silent :
    (∀ (env : Env) (s : TraceState) (pi : Nat) (name : Option String) (ud : Nat),
      env.readSockLen (toU64 (getParam (getP s pi).params 2)) < 2 →
      syscall_accept env s pi name ud = .ok s) ∧
    (∀ (env : Env) (s : TraceState) (pi : Nat) (name : Option String) (ud : Nat),
      toU32 (getParam (getP s pi).params 2) < 2 →
      syscall_connect env s pi name ud = .ok s) := by
  refine ⟨?_, ?_⟩
  · intro env s pi name ud h
    unfold syscall_accept handle_accept
    dsimp only
    rw [if_neg (not_le.mpr h)]
  · intro env s pi name ud h
    unfold syscall_connect handle_connect
    dsimp only
    rw [if_neg (not_le.mpr h)]

/-- Witness for C10: an accept whose in-tracee socklen is 1 and a connect
whose socklen argument is 0 both return success silently. -/
theorem c10_witness :
    syscall_accept { envA with readSockLen := fun _ => 1 }
      (oneTask 43 true) 0 (some "accept") 0 = .ok (oneTask 43 true) ∧
    syscall_connect envA (oneTask 42 true) 0 (some "connect") 0
      = .ok (oneTask 42 true) :=
  ⟨c10_truncated_sockaddr_silent.1 { envA with readSockLen := fun _ => 1 }
      (oneTask 43 true) 0 (some "accept") 0 (by decide),
   c10_truncated_sockaddr_silent.2 envA (oneTask 42 true) 0 (some "connect") 0
      (by decide)⟩

/-- The environment for the creat scenario: the tracee argument string
is "out", and the resolved path is not a directory. -/
def envOut : Env := { envA with readString := fun _ => "out" }

/-- The creat scenario task: `creat("out", 0644)` (mode 0644 = 420 in
argument 1) returning fd 4, on the exit edge. -/
def creatProcess : Process :=
  { task100 85 true with params := ⟨0, 420, 0, 0, 0, 0⟩, retvalue := 4 }

def creatTask : TraceState :=
  { processes := [creatProcess], trace := [], next_id := 1 }

/-- C5 (counterexample): the claim expects
`add_file_open(id, "/home/u/out", FILE_READ|FILE_WRITE, false)` for
`creat("out", 0644)`.  Under the claim's own flag mapping the union with
`O_CREAT|O_WRONLY|O_TRUNC` makes the access mode WRONLY (0644|01101 has
low bits 01), so FILE_READ is not set: the handler emits mode FILE_WRITE
alone, which differs from FILE_READ|||FILE_WRITE. -/
theorem c5_creat_counterexample :
    (syscall_fileopening envOut creatTask 0 (some "creat")
        SYSCALL_OPENING_CREAT).state.trace =
      [.add_file_open 7 "/home/u/out" FILE_WRITE false] ∧
    FILE_WRITE ≠ FILE_READ ||| FILE_WRITE := by
  refine ⟨by decide, by decide⟩

/-- C5 (amended): the creat handler computes the mode as
`flags2mode(arg1 | O_CREAT|O_WRONLY|O_TRUNC)`; `flags2mode` sets
FILE_READ exactly when the access mode is RDONLY or RDWR and FILE_WRITE
when the access mode is WRONLY or RDWR or O_CREAT or O_TRUNC is present;
consequently `creat("out", 0644)` returning 4 on a task with wd /home/u
emits `add_file_open(id, "/home/u/out", FILE_WRITE, false)` (the union
forces access mode WRONLY, so FILE_READ is absent). -/
theorem c5_creat_mode (env : Env) (s : TraceState) (pi : Nat)
    (name : Option String) :
    (0 ≤ (getP s pi).retvalue →
      syscall_fileopening env s pi name SYSCALL_OPENING_CREAT =
        .ok (emit s (.add_file_open (getP s pi).identifier
              (abs_path_arg env (getP s pi) 0)
              (flags2mode (toU64 (getParam (getP s pi).params 1) |||
                 (O_CREAT ||| O_WRONLY ||| O_TRUNC)))
              (env.isDir (abs_path_arg env (getP s pi) 0))))) ∧
    (∀ f : Nat,
      (flags2mode f &&& FILE_READ ≠ 0 ↔
        f &&& O_ACCMODE = O_RDONLY ∨ f &&& O_ACCMODE = O_RDWR) ∧
      (flags2mode f &&& FILE_WRITE ≠ 0 ↔
        f &&& O_ACCMODE = O_WRONLY ∨ f &&& O_ACCMODE = O_RDWR ∨
        f &&& O_CREAT ≠ 0 ∨ f &&& O_TRUNC ≠ 0)) ∧
    (syscall_fileopening envOut creatTask 0 (some "creat")
        SYSCALL_OPENING_CREAT).state.trace =
      [.add_file_open 7 "/home/u/out" FILE_WRITE false] := by
  refine ⟨?_, ?_, by decide⟩
  · intro hr
    unfold syscall_fileopening
    dsimp only
    rw [if_neg (by decide : ¬ SYSCALL_OPENING_CREAT = SYSCALL_OPENING_ACCESS),
        if_pos (rfl : SYSCALL_OPENING_CREAT = SYSCALL_OPENING_CREAT),
        if_pos hr]
  · intro f
    unfold flags2mode
    dsimp only
    by_cases h1 : f &&& O_ACCMODE = O_RDONLY ∨ f &&& O_ACCMODE = O_RDWR <;>
      by_cases h2 : f &&& O_ACCMODE = O_WRONLY ∨ f &&& O_ACCMODE = O_RDWR ∨
          f &&& O_CREAT ≠ 0 ∨ f &&& O_TRUNC ≠ 0 <;>
        simp [h1, h2, FILE_READ, FILE_WRITE]

/-- Witness for C5 (amended): the concrete creat run, with the
hypothesis `0 <= retvalue` discharged, emits the FILE_WRITE event. -/
theorem c5_creat_witness :
    syscall_fileopening envOut creatTask 0 (some "creat")
        SYSCALL_OPENING_CREAT =
      .ok (emit creatTask (.add_file_open 7 "/home/u/out" FILE_WRITE false)) :=
  (((c5_creat_mode envOut creatTask 0 (some "creat")).1) (by decide)).trans
    (by decide)

/-- C3: an execve exit delivered on a task whose own scratch is null,
with the search finding the calling task at slot `j`, emits in order:
`add_exit(caller.identifier, 0)`; then (the caller's wd freed and the
caller marked FREE) when `retvalue >= 0` `add_exec(surviving.identifier,
binary, argv, envp, surviving.wd)` followed by
`add_files_from_proc(surviving.identifier, surviving.tid, binary)`; and
finally the scratch is released and the caller's `syscall_info` nulled.
The surviving task's slot is otherwise untouched. -/
theorem c3_execve_exit_leader_swap (env : Env) (s : TraceState) (pi j : Nat)
    (ud : Nat) (name : Option String) (execi : ExecveInfo)
    (hpiN : (getP s pi).syscall_info = none)
    (hfind : s.processes.findIdx? (execveMatch (ofI32 ud) (getP s pi).tgid)
      = some j)
    (hj : j < s.processes.length)
    (hne : j ≠ pi)
    (hinfo : (getP s j).syscall_info = some execi)
    (hret : 0 ≤ (getP s pi).retvalue) :
    (syscall_execve_out env s pi name ud).isOk = true ∧
    (syscall_execve_out env s pi name ud).state.trace =
      s.trace ++ [.add_exit (getP s j).identifier 0,
        .add_exec (getP s pi).identifier execi.binary execi.argv execi.envp
          (getP s pi).wd,
        .add_files_from_proc (getP s pi).identifier (getP s pi).tid
          execi.binary] ∧
    (getP (syscall_execve_out env s pi name ud).state j).status = .free ∧
    (getP (syscall_execve_out env s pi name ud).state j).wd = "" ∧
    (getP (syscall_execve_out env s pi name ud).state j).syscall_info = none ∧
    getP (syscall_execve_out env s pi name ud).state pi = getP s pi := by
  have hj1 : j < (emit s (.add_exit (getP s j).identifier 0)).processes.length := hj
  have hgp1 : getP (setP (emit s (.add_exit (getP s j).identifier 0)) j
      { getP s j with wd := "", status := .free }) pi = getP s pi := by
    rw [getP_setP_ne _ _ _ _ (Ne.symm hne)]
    rfl
  have hgj1 : getP (setP (emit s (.add_exit (getP s j).identifier 0)) j
      { getP s j with wd := "", status := .free }) j
      = { getP s j with wd := "", status := .free } := by
    rw [getP_setP_self]
    exact hj1
  have heq : syscall_execve_out env s pi name ud =
      execve_out_common (setP (emit s (.add_exit (getP s j).identifier 0)) j
        { getP s j with wd := "", status := .free }) pi j execi := by
    unfold syscall_execve_out
    dsimp only
    simp only [hpiN, hfind, Option.getD_some, hinfo]
  rw [heq]
  unfold execve_out_common
  dsimp only
  rw [hgp1, if_pos hret]
  have hjlen2 : j < (emit (emit (setP (emit s
      (.add_exit (getP s j).identifier 0)) j
      { getP s j with wd := "", status := .free })
      (.add_exec (getP s pi).identifier execi.binary execi.argv execi.envp
        (getP s pi).wd))
      (.add_files_from_proc (getP s pi).identifier (getP s pi).tid
        execi.binary)).processes.length := by
    simpa [emit, setP] using hj
  refine ⟨rfl, ?_, ?_, ?_, ?_, ?_⟩
  · rw [state_ok, trace_setP, trace_emit, trace_emit, trace_setP, trace_emit]
    simp
  · rw [state_ok, getP_setP_self _ _ _ hjlen2]
    show (getP _ j).status = Status.free
    rw [getP_emit, getP_emit, hgj1]
  · rw [state_ok, getP_setP_self _ _ _ hjlen2]
    show (getP _ j).wd = ""
    rw [getP_emit, getP_emit, hgj1]
  · rw [state_ok, getP_setP_self _ _ _ hjlen2]
  · rw [state_ok, getP_setP_ne _ _ _ _ (Ne.symm hne), getP_emit, getP_emit, hgp1]

/-- The scratch captured at execve entry by thread 101. -/
def execiLS : ExecveInfo := ⟨"/bin/ls", ["ls"], []⟩

/-- Thread 101 of thread group 100: mid-execve with a live scratch. -/
def task101 : Process :=
  { task100 59 true with
    tid := 101, identifier := 8, syscall_info := some execiLS }

/-- The execve leader-swap scenario: the stop is delivered on the group
leader (slot 0, tid 100) while the caller is thread 101 (slot 1). -/
def c3State : TraceState :=
  { processes := [task100 59 true, task101], trace := [], next_id := 9 }

/-- Witness for C3: spec scenario 5.  The exit dispatched on task 100
emits `add_exit(id(101), 0)`, then `add_exec(id(100), "/bin/ls", argv,
envp, wd(100))`, then `add_files_from_proc(id(100), 100, "/bin/ls")`,
and thread 101's slot is freed. -/
theorem c3_witness :
    (syscall_execve_out envA c3State 0 (some "execve") 59).isOk = true ∧
    (syscall_execve_out envA c3State 0 (some "execve") 59).state.trace =
      [.add_exit 8 0, .add_exec 7 "/bin/ls" ["ls"] [] "/home/u",
       .add_files_from_proc 7 100 "/bin/ls"] ∧
    (getP (syscall_execve_out envA c3State 0 (some "execve") 59).state 1).status
      = .free := by
  have h := c3_execve_exit_leader_swap envA c3State 0 1 59 (some "execve")
    execiLS (by decide) (by decide) (by decide) (by decide) (by decide)
    (by decide)
  exact ⟨h.1, (h.2.1).trans (by decide), h.2.2.1⟩

theorem getP_append_lt (s : TraceState) (q : Process) (i : Nat)
    (h : i < s.processes.length) :
    getP { s with processes := s.processes ++ [q] } i = getP s i := by
  simp [getP, List.getD_eq_getElem?_getD, List.getElem?_append, h]

theorem getP_mk (ps : List Process) (tr : List Event) (n i : Nat) :
    getP ⟨ps, tr, n⟩ i = ps.getD i defaultProcess := rfl

theorem getD_set_self (l : List Process) (j : Nat) (p : Process)
    (h : j < l.length) : (l.set j p).getD j defaultProcess = p := by
  simp [List.getD_eq_getElem?_getD, List.getElem?_set_self h]

/-- `forking_finish` in closed form: set tgid / wd on slot `j`, then
`db_add_process` vends `next_id` as the identifier and appends the
event. -/
theorem forking_finish_spec (s : TraceState) (pi j : Nat) (b : Bool)
    (hj : j < s.processes.length) (hpij : pi ≠ j) :
    forking_finish s pi j b =
      .ok ⟨s.processes.set j
            { getP s j with
              tgid := if b then (getP s pi).tgid else (getP s j).tid,
              wd := (getP s pi).wd, identifier := s.next_id },
           s.trace ++ [.add_process (getP s pi).identifier (getP s pi).wd],
           s.next_id + 1⟩ := by
  unfold forking_finish
  dsimp only
  rw [getP_setP_ne _ _ _ _ hpij, getP_setP_self _ _ _ hj]
  show HRes.ok ⟨(s.processes.set j _).set j _, _, _⟩ = _
  rw [List.set_set]
  rfl

/-- C9: a fork/vfork/clone exit with `retvalue > 0`.  When the new tid is
absent from the registry a fresh task is allocated with status ALLOCATED
and `in_syscall = false`; when it is present with status UNKNOWN it is
promoted to ATTACHED and resumed via PTRACE_SYSCALL.  In both cases the
new task's tgid is the parent's tgid when the clone flags include
CLONE_THREAD and the new tid otherwise, its wd is a copy of the parent's
wd, and exactly one `add_process(parent.identifier, parent.wd)` event is
emitted (vending the new identifier). -/
theorem c9_forking_spec (env : Env) (s : TraceState) (pi : Nat)
    (name : Option String) (ud : Nat)
    (hpi : pi < s.processes.length)
    (hret : 0 < (getP s pi).retvalue) :
    (trace_find_process s.processes (getP s pi).retvalue = none →
      (syscall_forking env s pi name ud).isOk = true ∧
      (syscall_forking env s pi name ud).state.trace =
        s.trace ++ [.add_process (getP s pi).identifier (getP s pi).wd] ∧
      (syscall_forking env s pi name ud).state.next_id = s.next_id + 1 ∧
      getP (syscall_forking env s pi name ud).state s.processes.length =
        { defaultProcess with
            status := .allocated, tid := (getP s pi).retvalue,
            in_syscall := false,
            tgid := if decide (ud = SYSCALL_FORK_CLONE ∧
                toU64 (getParam (getP s pi).params 0) &&& CLONE_THREAD ≠ 0)
              then (getP s pi).tgid else (getP s pi).retvalue,
            wd := (getP s pi).wd, identifier := s.next_id }) ∧
    (∀ j, trace_find_process s.processes (getP s pi).retvalue = some j →
      j < s.processes.length → j ≠ pi → (getP s j).status = .unknown →
      (syscall_forking env s pi name ud).isOk = true ∧
      (syscall_forking env s pi name ud).state.trace =
        s.trace ++ [.ptrace_resume (getP s j).tid,
          .add_process (getP s pi).identifier (getP s pi).wd] ∧
      (syscall_forking env s pi name ud).state.next_id = s.next_id + 1 ∧
      getP (syscall_forking env s pi name ud).state j =
        { getP s j with
            status := .attached,
            tgid := if decide (ud = SYSCALL_FORK_CLONE ∧
                toU64 (getParam (getP s pi).params 0) &&& CLONE_THREAD ≠ 0)
              then (getP s pi).tgid else (getP s j).tid,
            wd := (getP s pi).wd, identifier := s.next_id }) := by
  constructor
  · intro hnone
    unfold syscall_forking
    dsimp only
    rw [if_pos hret]
    simp only [hnone, trace_get_empty_process]
    rw [getP_append_one]
    have hpij : pi ≠ s.processes.length := Nat.ne_of_lt hpi
    have hj1 : s.processes.length < (setP
        { s with processes := s.processes ++ [defaultProcess] }
        s.processes.length
        { defaultProcess with
          status := .allocated, tid := (getP s pi).retvalue,
          in_syscall := false }).processes.length := by
      rw [length_setP]
      simp
    rw [forking_finish_spec _ _ _ _ hj1 hpij]
    have hp1 : getP (setP
        { s with processes := s.processes ++ [defaultProcess] }
        s.processes.length
        { defaultProcess with
          status := .allocated, tid := (getP s pi).retvalue,
          in_syscall := false }) pi = getP s pi := by
      rw [getP_setP_ne _ _ _ _ hpij]
      exact getP_append_lt _ _ _ hpi
    have hq1 : getP (setP
        { s with processes := s.processes ++ [defaultProcess] }
        s.processes.length
        { defaultProcess with
          status := .allocated, tid := (getP s pi).retvalue,
          in_syscall := false }) s.processes.length =
        { defaultProcess with
          status := .allocated, tid := (getP s pi).retvalue,
          in_syscall := false } := by
      refine getP_setP_self _ _ _ ?_
      simp
    refine ⟨rfl, ?_, rfl, ?_⟩
    · rw [state_ok, hp1]
      rfl
    · rw [state_ok, getP_mk, getD_set_self _ _ _ (by rw [length_setP]; simp),
          hq1, hp1]
      rfl
  · intro j hsome hjlen hjpi hunk
    unfold syscall_forking
    dsimp only
    rw [if_pos hret]
    simp only [hsome]
    rw [if_neg (show ¬ ((getP s j).status ≠ Status.unknown) from
          fun hc => hc hunk)]
    have hpij : pi ≠ j := Ne.symm hjpi
    have hj1 : j < (emit (setP s j { getP s j with status := .attached })
        (.ptrace_resume (getP s j).tid)).processes.length := by
      show j < (setP s j { getP s j with status := .attached }).processes.length
      rw [length_setP]
      exact hjlen
    rw [forking_finish_spec _ _ _ _ hj1 hpij]
    have hp1 : getP (emit (setP s j { getP s j with status := .attached })
        (.ptrace_resume (getP s j).tid)) pi = getP s pi := by
      rw [getP_emit, getP_setP_ne _ _ _ _ hpij]
    have hq1 : getP (emit (setP s j { getP s j with status := .attached })
        (.ptrace_resume (getP s j).tid)) j
        = { getP s j with status := .attached } := by
      rw [getP_emit, getP_setP_self _ _ _ hjlen]
    refine ⟨rfl, ?_, rfl, ?_⟩
    · rw [state_ok, hp1]
      show (s.trace ++ [Event.ptrace_resume (getP s j).tid]) ++
          [Event.add_process (getP s pi).identifier (getP s pi).wd] = _
      simp
    · rw [state_ok, getP_mk,
          getD_set_self _ _ _ (by simpa [emit, setP] using hjlen),
          hq1, hp1]
      rfl

/-- The fork scenario: task 100 returns from fork() with new tid 200. -/
def forkProcess : Process := { task100 57 true with retvalue := 200 }

def forkTask : TraceState :=
  { processes := [forkProcess], trace := [], next_id := 9 }

/-- Witness for C9: spec scenario 4 (fork seen parent-first).  The
registry has no task 200, so a fresh slot is allocated with status
ALLOCATED, tgid = 200, wd copied, and `add_process(id(100), "/home/u")`
vends identifier 9. -/
theorem c9_witness :
    (syscall_forking envA forkTask 0 (some "fork") SYSCALL_FORK_FORK).state.trace
      = [.add_process 7 "/home/u"] ∧
    (syscall_forking envA forkTask 0 (some "fork")
        SYSCALL_FORK_FORK).state.next_id = 10 ∧
    getP (syscall_forking envA forkTask 0 (some "fork")
        SYSCALL_FORK_FORK).state 1 =
      { defaultProcess with
        status := .allocated, tid := 200, in_syscall := false,
        tgid := 200, wd := "/home/u", identifier := 9 } := by
  have h := (c9_forking_spec envA forkTask 0 (some "fork") SYSCALL_FORK_FORK
      (by decide) (by decide)).1 (by decide)
  exact ⟨(h.2.1).trans (by decide), h.2.2.1, (h.2.2.2).trans (by decide)⟩

/-- The flip-and-resume tail of `syscall_handle` in closed form. -/
theorem flipAndResume_ok_spec (s3 : TraceState) (pi : Nat) (tid : Int)
    (hlen : pi < s3.processes.length) :
    (getP (flipAndResume s3 pi tid).state pi).in_syscall
      = !(getP s3 pi).in_syscall ∧
    ((getP s3 pi).in_syscall = true →
      (getP (flipAndResume s3 pi tid).state pi).current_syscall = -1 ∧
      (getP (flipAndResume s3 pi tid).state pi).syscall_info = none) ∧
    (flipAndResume s3 pi tid).state.trace.getLast?
      = some (.ptrace_resume tid) := by
  unfold flipAndResume
  dsimp only
  rw [state_ok, getP_emit, getP_setP_self _ _ _ hlen]
  cases hb : (getP s3 pi).in_syscall with
  | true =>
      refine ⟨rfl, fun _ => ⟨rfl, rfl⟩, ?_⟩
      show ((setP s3 pi _).trace ++ [Event.ptrace_resume tid]).getLast? = _
      simp
  | false =>
      refine ⟨rfl, ?_, ?_⟩
      · intro hc
        simp at hc
      · show ((setP s3 pi _).trace ++ [Event.ptrace_resume tid]).getLast? = _
        simp

/-- The scenario refuting C4 as stated: task 100 returns from fork() with
new tid 200, but tid 200 is already registered as ATTACHED, so the
forking handler logs a critical error and returns -1. -/
def c4State : TraceState :=
  { processes := [forkProcess,
      { task100 0 false with tid := 200, tgid := 200, identifier := 12 }],
    trace := [], next_id := 13 }

/-- C4 (counterexample): an invocation of `syscall_handle` in which the
exit handler fails (fork's "already running" critical error) returns -1
before the flip, so the task's `in_syscall` is not negated and the task
is not resumed: the claim's "negated exactly once by that invocation"
fails for failing invocations. -/
theorem c4_counterexample :
    (syscall_handle envA c4State 0).isOk = false ∧
    (getP c4State 0).in_syscall = true ∧
    (getP (syscall_handle envA c4State 0).state 0).in_syscall = true ∧
    (syscall_handle envA c4State 0).state.trace =
      [.log_critical 200 "just created process that is already running"] := by
  refine ⟨by decide, by decide, by decide, by decide⟩

/-- C4 (amended): for every invocation of `syscall_handle` that returns
success, the task's `in_syscall` flag is negated exactly once, and on
the exit edge `current_syscall` is reset to -1 and `syscall_info` to
null, before the task is resumed (the resume is the last trace entry);
an invocation whose handler fails returns -1 without negating the
flag. -/
theorem c4_flip_on_ok (env : Env) (s : TraceState) (pi : Nat)
    (s2 : TraceState) (hpi : pi < s.processes.length)
    (h : syscall_handle env s pi = .ok s2) :
    (getP s2 pi).in_syscall = !(getP s pi).in_syscall ∧
    ((getP s pi).in_syscall = true →
      (getP s2 pi).current_syscall = -1 ∧ (getP s2 pi).syscall_info = none) ∧
    s2.trace.getLast? = some (.ptrace_resume (getP s pi).tid) := by
  unfold syscall_handle at h
  dsimp only at h
  generalize hS1 : (if stripX32 (getP s pi).current_syscall < 0 ∨
      2000 ≤ stripX32 (getP s pi).current_syscall then
        emit s (Event.log_error (getP s pi).tid "INVALID SYSCALL") else s)
      = s1 at h
  have hg : ∀ i, getP s1 i = getP s i := by
    intro i
    rw [← hS1]
    split <;> rfl
  have hl : s1.processes.length = s.processes.length := by
    rw [← hS1]
    split <;> rfl
  split at h
  · simp at h
  · have hstate : (flipAndResume s1 pi (getP s pi).tid).state = s2 := by
      rw [h]
      rfl
    have hf := flipAndResume_ok_spec s1 pi ((getP s pi).tid)
      (by rw [hl]; exact hpi)
    rw [hstate, hg pi] at hf
    exact hf
  · rename_i entry hsel
    split at h
    · rename_i s3 heq
      have hpre : preserves s1 s3 := by
        split at heq
        · split at heq
          · rename_i tg htg
            exact applyHandler_preserves 8 tg env s1 pi entry.name entry.udata
              s3 (Or.inl heq)
          · injection heq with h2
            subst h2
            exact preserves_refl _
        · split at heq
          · rename_i tg htg
            exact applyHandler_preserves 8 tg env s1 pi entry.name entry.udata
              s3 (Or.inl heq)
          · injection heq with h2
            subst h2
            exact preserves_refl _
      have hlen3 : pi < s3.processes.length :=
        lt_of_lt_of_le (by rw [hl]; exact hpi) hpre.1
      have hin3 : (getP s3 pi).in_syscall = (getP s pi).in_syscall := by
        rw [(hpre.2 pi).2, hg pi]
      have hstate : (flipAndResume s3 pi (getP s pi).tid).state = s2 := by
        rw [h]
        rfl
      have hf := flipAndResume_ok_spec s3 pi ((getP s pi).tid) hlen3
      rw [hstate, hin3] at hf
      exact hf
    · simp at h
    · simp at h

/-- Witness for C4 (amended): a successful dispatch (syscall 0 on the
entry edge, no handler) flips `in_syscall` from false to true and resumes
the task. -/
theorem c4_witness :
    (getP (syscall_handle envA (oneTask 0 false) 0).state 0).in_syscall
      = !(getP (oneTask 0 false) 0).in_syscall ∧
    (syscall_handle envA (oneTask 0 false) 0).state.trace.getLast?
      = some (.ptrace_resume 100) := by
  have hload : syscall_handle envA (oneTask 0 false) 0 =
      .ok (syscall_handle envA (oneTask 0 false) 0).state := by decide
  have h := c4_flip_on_ok envA (oneTask 0 false) 0
    (syscall_handle envA (oneTask 0 false) 0).state (by decide) hload
  exact ⟨h.1, h.2.2⟩

/-- C7: for every *at syscall dispatched through `syscall_xxx_at` with
the directory-fd equal to the AT_FDCWD sentinel, whenever the wrapper
returns (0 or -1), the task's params register array equals its value
before the call: the left shift for the inner handler followed by the
right shift and restoring argument 0 is the identity on the array. -/
theorem c7_params_restored (fuel : Nat) (env : Env) (s : TraceState)
    (pi : Nat) (name : Option String) (real_syscall : Nat) (s2 : TraceState)
    (_hsent : getParam (getP s pi).params 0 = AT_FDCWD)
    (h : syscall_xxx_at (applyHandler fuel) env s pi name real_syscall
          = .ok s2 ∨
        syscall_xxx_at (applyHandler fuel) env s pi name real_syscall
          = .fail s2) :
    (getP s2 pi).params = (getP s pi).params := by
  have hpres : preserves s s2 :=
    applyHandler_preserves (fuel + 1) .xxx_at env s pi name real_syscall s2 h
  exact (hpres.2 pi).1

/-- The concrete *at dispatch for the C7 witness: an `openat` with
dirfd = AT_FDCWD and a distinctive register snapshot. -/
def c7Task : TraceState :=
  { processes := [{ task100 257 true with params := ⟨-100, 1, 0, 5, 6, 9⟩ }],
    trace := [], next_id := 1 }

/-- Witness for C7: after the openat dispatch through the wrapper, the
register snapshot is exactly what it was before. -/
theorem c7_witness :
    (getP (syscall_xxx_at (applyHandler 1) envOut c7Task 0 (some "openat")
        2).state 0).params = ⟨-100, 1, 0, 5, 6, 9⟩ :=
  (c7_params_restored 1 envOut c7Task 0 (some "openat") 2
    (syscall_xxx_at (applyHandler 1) envOut c7Task 0 (some "openat") 2).state
    (by decide) (Or.inl (by decide))).trans (by decide)

/-! ## C6: openat with AT_FDCWD against plain open -/

/-- An X86_64 task stopped at the exit of `openat` (syscall 257) whose
dirfd argument (register 0) is the AT_FDCWD sentinel, the pathname
pointer and the flags in registers 1 and 2. -/
def oaProcess (wd : String) (tid : Int) (ident : Nat)
    (ret addr flags a3 a4 a5 : Int) (st : Status) (info : Option ExecveInfo) : Process :=
  { tid := tid, tgid := tid, wd := wd, mode := .x86_64, status := st,
    in_syscall := true, current_syscall := 257,
    params := ⟨-100, addr, flags, a3, a4, a5⟩, retvalue := ret,
    identifier := ident, syscall_info := info }

/-- The same task stopped at the exit of `open` (syscall 2), with the
same pathname pointer and flags in registers 0 and 1. -/
def opProcess (wd : String) (tid : Int) (ident : Nat)
    (ret addr flags b3 b4 b5 : Int) (st : Status) (info : Option ExecveInfo) : Process :=
  { tid := tid, tgid := tid, wd := wd, mode := .x86_64, status := st,
    in_syscall := true, current_syscall := 2,
    params := ⟨addr, flags, b3, b4, b5, b5⟩, retvalue := ret,
    identifier := ident, syscall_info := info }

/-- Registry holding only the `openat` task. -/
def openatT (wd : String) (tid : Int) (ident : Nat)
    (ret addr flags a3 a4 a5 : Int) (st : Status) (info : Option ExecveInfo) : TraceState :=
  { processes := [oaProcess wd tid ident ret addr flags a3 a4 a5 st info],
    trace := [], next_id := 1 }

/-- Registry holding only the `open` task. -/
def openT (wd : String) (tid : Int) (ident : Nat)
    (ret addr flags b3 b4 b5 : Int) (st : Status) (info : Option ExecveInfo) : TraceState :=
  { processes := [opProcess wd tid ident ret addr flags b3 b4 b5 st info],
    trace := [], next_id := 1 }

theorem stripX32_257 : stripX32 257 = 257 := by decide

theorem stripX32_2 : stripX32 2 = 2 := by decide

theorem hasX32Bit_257 : hasX32Bit 257 = false := by decide

theorem hasX32Bit_2 : hasX32Bit 2 = false := by decide

theorem tableX64_entries_257 :
    tableX64.entries 257 = ⟨some "openat", none, some HandlerTag.xxx_at, 2⟩ := by decide

theorem tableX64_entries_2 :
    tableX64.entries 2 = ⟨some "open", none, some HandlerTag.fileopening,
      SYSCALL_OPENING_OPEN⟩ := by decide

theorem tableX64_length : tableX64.length = 304 := by decide

theorem syscallTable_x64 : syscallTable SYSCALL_X86_64 = tableX64 := by
  unfold syscallTable
  rw [if_neg (by decide), if_pos rfl]

theorem applyHandler_8_xxx_at (env : Env) (s : TraceState) (pi : Nat)
    (name : Option String) (ud : Nat) :
    applyHandler 8 HandlerTag.xxx_at env s pi name ud
      = syscall_xxx_at (applyHandler 7) env s pi name ud := rfl

theorem applyHandler_7_fileopening (env : Env) (s : TraceState) (pi : Nat)
    (name : Option String) (ud : Nat) :
    applyHandler 7 HandlerTag.fileopening env s pi name ud
      = syscall_fileopening env s pi name ud := rfl

theorem applyHandler_8_fileopening (env : Env) (s : TraceState) (pi : Nat)
    (name : Option String) (ud : Nat) :
    applyHandler 8 HandlerTag.fileopening env s pi name ud
      = syscall_fileopening env s pi name ud := rfl

/-- How `syscall_handle` runs an exit-edge dispatch once the range test
passes and the entry resolves: the exit-handler, then flip-and-resume on
success. -/
theorem syscall_handle_exit_found (env : Env) (s : TraceState) (pi : Nat)
    (entry : TableEntry) (tag : HandlerTag)
    (hrange : ¬(stripX32 (getP s pi).current_syscall < 0 ∨
        2000 ≤ stripX32 (getP s pi).current_syscall))
    (hsel : selectEntry s (getP s pi) (stripX32 (getP s pi).current_syscall)
        (syscallType (getP s pi)) = .found entry)
    (hin : (getP s pi).in_syscall = true)
    (hexit : entry.proc_exit = some tag) :
    syscall_handle env s pi
      = match applyHandler 8 tag env s pi entry.name entry.udata with
        | .ok s2 => flipAndResume s2 pi (getP s pi).tid
        | .fail s2 => .fail s2
        | .crash s2 => .crash s2 := by
  unfold syscall_handle
  dsimp only
  rw [if_neg hrange, hsel]
  dsimp only
  rw [hin, if_neg (by decide : ¬(true = false)), hexit]

/-- How `syscall_xxx_at` re-dispatches when the dirfd is the sentinel
and the real syscall resolves to a valid exit entry: shift the
arguments, run the inner handler, shift them back. -/
theorem xxx_at_dispatch
    (inner : HandlerTag → Env → TraceState → Nat → Option String → Nat → HRes)
    (env : Env) (s : TraceState) (pi : Nat) (name : Option String)
    (real_syscall : Nat) (entry : TableEntry) (tag : HandlerTag)
    (h0 : getParam (getP s pi).params 0 = AT_FDCWD)
    (hlen : real_syscall < (syscallTable (syscallType (getP s pi))).length)
    (hentry : (syscallTable (syscallType (getP s pi))).entries real_syscall = entry)
    (hname : entry.name.isNone = false)
    (hexit : entry.proc_exit = some tag) :
    syscall_xxx_at inner env s pi name real_syscall
      = match inner tag env
            (setP s pi { getP s pi with params := leftShiftParams (getP s pi).params })
            pi entry.name entry.udata with
        | .crash s2 => .crash s2
        | .ok s2 => .ok (setP s2 pi { getP s2 pi with
            params := rightShiftParams (getParam (getP s pi).params 0)
              (getP s2 pi).params })
        | .fail s2 => .fail (setP s2 pi { getP s2 pi with
            params := rightShiftParams (getParam (getP s pi).params 0)
              (getP s2 pi).params }) := by
  unfold syscall_xxx_at
  dsimp only
  rw [if_pos h0, if_pos hlen, hentry]
  dsimp only
  have hvalid : ¬(entry.name.isNone = true ∨ entry.proc_exit.isNone = true) := by
    intro hc
    rcases hc with h | h
    · rw [hname] at h
      exact absurd h (by decide)
    · rw [hexit] at h
      simp at h
  rw [if_neg hvalid, hexit]

/-- `syscall_fileopening` with the `open` discriminator: on success one
`add_file_open` with the mode translated from the flags register. -/
theorem fileopening_open (env : Env) (s : TraceState) (pi : Nat)
    (name : Option String) :
    syscall_fileopening env s pi name SYSCALL_OPENING_OPEN
      = if 0 ≤ (getP s pi).retvalue then
          .ok (emit s (.add_file_open (getP s pi).identifier
            (abs_path_arg env (getP s pi) 0)
            (flags2mode (toU64 (getParam (getP s pi).params 1)))
            (env.isDir (abs_path_arg env (getP s pi) 0))))
        else .ok s := by
  unfold syscall_fileopening
  dsimp only
  rw [if_neg (show ¬(SYSCALL_OPENING_OPEN = SYSCALL_OPENING_ACCESS) by decide)]
  rw [if_neg (show ¬(SYSCALL_OPENING_OPEN = SYSCALL_OPENING_CREAT) by decide)]

/-- The resolved pathname of the open/openat pathname argument: the
string read at the pointer, made absolute against the task's wd. -/
def c6Path (env : Env) (wd : String) (addr : Int) : String :=
  if isAbsolute (env.readString (toU64 addr)) then env.readString (toU64 addr)
  else abspath wd (env.readString (toU64 addr))

/-- The common trace both dispatches produce: the `add_file_open` on a
non-negative return value, then the resume of the task. -/
def c6Trace (env : Env) (wd : String) (tid ret addr flags : Int) (ident : Nat) : List Event :=
  (if 0 ≤ ret then
     [Event.add_file_open ident (c6Path env wd addr) (flags2mode (toU64 flags))
        (env.isDir (c6Path env wd addr))]
   else []) ++ [Event.ptrace_resume tid]

theorem c6_openat_trace (env : Env) (wd : String) (tid : Int) (ident : Nat)
    (ret addr flags a3 a4 a5 : Int) (st : Status) (info : Option ExecveInfo) :
    (syscall_handle env (openatT wd tid ident ret addr flags a3 a4 a5 st info) 0).state.trace
      = c6Trace env wd tid ret addr flags ident := by
  have hcs : stripX32 (getP (openatT wd tid ident ret addr flags a3 a4 a5 st info)
      0).current_syscall = 257 := by
    rw [show (getP (openatT wd tid ident ret addr flags a3 a4 a5 st info)
      0).current_syscall = (257 : Int) from rfl]
    exact stripX32_257
  have hty : syscallType (getP (openatT wd tid ident ret addr flags a3 a4 a5 st info) 0)
      = SYSCALL_X86_64 := by
    unfold syscallType
    rw [show (getP (openatT wd tid ident ret addr flags a3 a4 a5 st info) 0).mode
      = Mode.x86_64 from rfl]
    rw [show (getP (openatT wd tid ident ret addr flags a3 a4 a5 st info)
      0).current_syscall = (257 : Int) from rfl]
    rw [hasX32Bit_257]
    rw [if_neg (by decide), if_neg (by decide)]
  have hsel : selectEntry (openatT wd tid ident ret addr flags a3 a4 a5 st info)
      (getP (openatT wd tid ident ret addr flags a3 a4 a5 st info) 0)
      (stripX32 (getP (openatT wd tid ident ret addr flags a3 a4 a5 st info)
        0).current_syscall)
      (syscallType (getP (openatT wd tid ident ret addr flags a3 a4 a5 st info) 0))
      = .found ⟨some "openat", none, some HandlerTag.xxx_at, 2⟩ := by
    rw [hcs, hty]
    unfold selectEntry
    dsimp only
    rw [syscallTable_x64]
    rw [if_neg (fun hc => absurd hc.1 (by decide))]
    rw [if_neg (fun hc => absurd hc.1 (by decide))]
    rw [if_pos (Or.inl (by decide))]
    rw [if_pos ⟨by decide, by rw [tableX64_length]; decide⟩]
    rw [show ((257 : Int).toNat) = 257 from rfl, tableX64_entries_257]
  have h1 := syscall_handle_exit_found env
    (openatT wd tid ident ret addr flags a3 a4 a5 st info) 0
    ⟨some "openat", none, some HandlerTag.xxx_at, 2⟩ HandlerTag.xxx_at
    (by rw [hcs]; decide) hsel rfl rfl
  rw [h1]
  dsimp only
  rw [applyHandler_8_xxx_at]
  have h2 := xxx_at_dispatch (applyHandler 7) env
    (openatT wd tid ident ret addr flags a3 a4 a5 st info) 0 (some "openat") 2
    ⟨some "open", none, some HandlerTag.fileopening, SYSCALL_OPENING_OPEN⟩
    HandlerTag.fileopening rfl
    (by rw [hty, syscallTable_x64, tableX64_length]; decide)
    (by rw [hty, syscallTable_x64]; exact tableX64_entries_2)
    rfl rfl
  rw [h2]
  dsimp only
  rw [applyHandler_7_fileopening]
  rw [fileopening_open]
  rw [show (getP (setP (openatT wd tid ident ret addr flags a3 a4 a5 st info) 0
    { getP (openatT wd tid ident ret addr flags a3 a4 a5 st info) 0 with
      params := leftShiftParams (getP (openatT wd tid ident ret addr flags a3 a4 a5
        st info) 0).params }) 0).retvalue = ret from rfl]
  unfold c6Trace c6Path
  by_cases hr : (0 : Int) ≤ ret
  · rw [if_pos hr, if_pos hr]
    rfl
  · rw [if_neg hr, if_neg hr]
    rfl

theorem c6_open_trace (env : Env) (wd : String) (tid : Int) (ident : Nat)
    (ret addr flags b3 b4 b5 : Int) (st : Status) (info : Option ExecveInfo) :
    (syscall_handle env (openT wd tid ident ret addr flags b3 b4 b5 st info) 0).state.trace
      = c6Trace env wd tid ret addr flags ident := by
  have hcs : stripX32 (getP (openT wd tid ident ret addr flags b3 b4 b5 st info)
      0).current_syscall = 2 := by
    rw [show (getP (openT wd tid ident ret addr flags b3 b4 b5 st info)
      0).current_syscall = (2 : Int) from rfl]
    exact stripX32_2
  have hty : syscallType (getP (openT wd tid ident ret addr flags b3 b4 b5 st info) 0)
      = SYSCALL_X86_64 := by
    unfold syscallType
    rw [show (getP (openT wd tid ident ret addr flags b3 b4 b5 st info) 0).mode
      = Mode.x86_64 from rfl]
    rw [show (getP (openT wd tid ident ret addr flags b3 b4 b5 st info)
      0).current_syscall = (2 : Int) from rfl]
    rw [hasX32Bit_2]
    rw [if_neg (by decide), if_neg (by decide)]
  have hsel : selectEntry (openT wd tid ident ret addr flags b3 b4 b5 st info)
      (getP (openT wd tid ident ret addr flags b3 b4 b5 st info) 0)
      (stripX32 (getP (openT wd tid ident ret addr flags b3 b4 b5 st info)
        0).current_syscall)
      (syscallType (getP (openT wd tid ident ret addr flags b3 b4 b5 st info) 0))
      = .found ⟨some "open", none, some HandlerTag.fileopening, SYSCALL_OPENING_OPEN⟩ := by
    rw [hcs, hty]
    unfold selectEntry
    dsimp only
    rw [syscallTable_x64]
    rw [if_neg (fun hc => absurd hc.1 (by decide))]
    rw [if_neg (fun hc => absurd hc.1 (by decide))]
    rw [if_pos (Or.inl (by decide))]
    rw [if_pos ⟨by decide, by rw [tableX64_length]; decide⟩]
    rw [show ((2 : Int).toNat) = 2 from rfl, tableX64_entries_2]
  have h1 := syscall_handle_exit_found env
    (openT wd tid ident ret addr flags b3 b4 b5 st info) 0
    ⟨some "open", none, some HandlerTag.fileopening, SYSCALL_OPENING_OPEN⟩
    HandlerTag.fileopening
    (by rw [hcs]; decide) hsel rfl rfl
  rw [h1]
  dsimp only
  rw [applyHandler_8_fileopening]
  rw [fileopening_open]
  rw [show (getP (openT wd tid ident ret addr flags b3 b4 b5 st info) 0).retvalue
    = ret from rfl]
  unfold c6Trace c6Path
  by_cases hr : (0 : Int) ≤ ret
  · rw [if_pos hr, if_pos hr]
    rfl
  · rw [if_neg hr, if_neg hr]
    rfl

/-- C6: for every X86_64 task and all path and flags arguments,
dispatching `openat` (syscall 257) on exit with the directory fd equal
to the AT_FDCWD sentinel produces exactly the same trace - in
particular the same `add_file_open` event with the same identifier,
resolved path, mode bits and is_dir probe - as dispatching `open`
(syscall 2) on exit with the same path pointer and flags in argument
positions 0 and 1, whatever the remaining registers hold and whatever
the shared return value is. -/
theorem c6_openat_eq_open (env : Env) (wd : String) (tid : Int) (ident : Nat)
    (ret addr flags a3 a4 a5 b3 b4 b5 : Int) (st : Status) (info : Option ExecveInfo) :
    (syscall_handle env (openatT wd tid ident ret addr flags a3 a4 a5 st info) 0).state.trace
      = (syscall_handle env (openT wd tid ident ret addr flags b3 b4 b5 st info) 0).state.trace :=
  (c6_openat_trace env wd tid ident ret addr flags a3 a4 a5 st info).trans
    (c6_open_trace env wd tid ident ret addr flags b3 b4 b5 st info).symm

end Reprozip
